import Mathlib

/-!
Shallow embedding of the game-board component of a 3x3 tic-tac-toe game
(`src/app/game-board/game-board.component.ts`).

Cells hold `''`, `'X'` or `'O'` in the source; these become `Mark.E`,
`Mark.X`, `Mark.O`.  The grid `string[][]` becomes `List (List Mark)`.
JavaScript numbers that can be `±Infinity` (the minimax accumulators)
become `JsNum`.  The recursion of `minimax` is modelled with an explicit
fuel argument; the development proves that any fuel at least the number
of empty cells (hence at least 9) gives the same answer, which is the
termination argument of the source.  `minimax` and `getBestMove` mutate
the board in place (place a mark, recurse, undo); the embedding threads
the board value through and returns it, so that the place-then-undo
discipline is a provable statement rather than an assumption.
-/

namespace TTT

/-- Cell content: `''`, `'X'` or `'O'`. -/
inductive Mark where
  | E
  | X
  | O
deriving DecidableEq, Repr

/-- The grid `string[][]`. -/
abbrev Board := List (List Mark)

/-- `Array(3).fill(null).map(() => Array(3).fill(''))`. -/
def emptyGrid : Board := List.replicate 3 (List.replicate 3 Mark.E)

/-- Read `board[r][c]`; out-of-range reads give `Mark.E` (used only where the
source reads inside a well-formed 3x3 grid). -/
def getCell (b : Board) (r c : Nat) : Mark := (b.getD r []).getD c Mark.E

/-- Write `board[r][c] = m`; out-of-range writes are dropped (used only where
the source writes inside a well-formed 3x3 grid). -/
def setCell (b : Board) (r c : Nat) (m : Mark) : Board :=
  b.set r ((b.getD r []).set c m)

/-- The eight fixed lines of `checkWin`. -/
def winningCombinations : List (List (Nat × Nat)) :=
  [[(0, 0), (0, 1), (0, 2)],
   [(1, 0), (1, 1), (1, 2)],
   [(2, 0), (2, 1), (2, 2)],
   [(0, 0), (1, 0), (2, 0)],
   [(0, 1), (1, 1), (2, 1)],
   [(0, 2), (1, 2), (2, 2)],
   [(0, 0), (1, 1), (2, 2)],
   [(0, 2), (1, 1), (2, 0)]]

/-- `checkWin(board)`: some combination is all `'O'` or all `'X'`. -/
def checkWin (b : Board) : Bool :=
  winningCombinations.any fun combination =>
    combination.all (fun p => getCell b p.1 p.2 == Mark.O) ||
    combination.all (fun p => getCell b p.1 p.2 == Mark.X)

/-- `isDraw(board)`: every cell of every row is non-empty.  (The source does
not consult `checkWin` here.) -/
def isDraw (b : Board) : Bool :=
  b.all fun row => row.all fun cell => cell != Mark.E

/-- `getAvailableMoves(board)`: the empty cells in row-major order
(`row` 0..2 outer, `col` 0..2 inner). -/
def getAvailableMoves (b : Board) : List (Nat × Nat) :=
  (List.range 3).flatMap fun row =>
    ((List.range 3).filter fun col => getCell b row col == Mark.E).map
      fun col => (row, col)

/-- A JavaScript number as used by the search: an integer or `±Infinity`. -/
inductive JsNum where
  | negInf
  | fin (n : Int)
  | posInf
deriving DecidableEq, Repr

/-- The `<` comparison on `JsNum`. -/
def JsNum.lt : JsNum → JsNum → Bool
  | .negInf, .negInf => false
  | .negInf, _ => true
  | .fin _, .negInf => false
  | .fin a, .fin b => a < b
  | .fin _, .posInf => true
  | .posInf, _ => false

/-- `Math.max(a, b)`. -/
def JsNum.max (a b : JsNum) : JsNum := if JsNum.lt a b then b else a

/-- `Math.min(a, b)`. -/
def JsNum.min (a b : JsNum) : JsNum := if JsNum.lt b a then b else a

/-- `bestScore = isMaximizing ? Math.max(score, bestScore) : Math.min(score, bestScore)`. -/
def combineScore (isMaximizing : Bool) (score bestScore : JsNum) : JsNum :=
  if isMaximizing then JsNum.max score bestScore else JsNum.min score bestScore

/-- Number of empty cells of the grid (the measure that bounds the
recursion depth of `minimax`). -/
def countEmpty (b : Board) : Nat := (b.map fun row => row.count Mark.E).sum

/-- `minimax(board, depth, isMaximizing, aiSymbol, playerSymbol)`.

The `fuel` argument bounds the recursion (the source recurses freely; fuel
of at least `countEmpty board` is proved to be exact, see the termination
theorem).  The board is mutated in place in the source (place the mark,
recurse, undo); here the board value is threaded through and returned. -/
def minimax (fuel : Nat) (board : Board) (depth : Nat) (isMaximizing : Bool)
    (aiSymbol playerSymbol : Mark) : JsNum × Board :=
  if checkWin board then
    ((if isMaximizing then JsNum.fin (-10 + (depth : Int))
      else JsNum.fin (10 - (depth : Int))), board)
  else if isDraw board then
    (JsNum.fin 0, board)
  else
    match fuel with
    | 0 => (JsNum.fin 0, board)
    | fuel' + 1 =>
      (getAvailableMoves board).foldl
        (fun acc move =>
          let b1 := setCell acc.2 move.1 move.2
            (if isMaximizing then aiSymbol else playerSymbol)
          let r := minimax fuel' b1 (depth + 1) (!isMaximizing) aiSymbol playerSymbol
          let b2 := setCell r.2 move.1 move.2 Mark.E
          (combineScore isMaximizing r.1 acc.1, b2))
        ((if isMaximizing then JsNum.negInf else JsNum.posInf), board)

/-- `getBestMove(board, aiSymbol)`: returns the chosen `[row, col]` pair
(`[-1, -1]` when no move was found) together with the threaded board. -/
def getBestMove (board : Board) (aiSymbol : Mark) : (Int × Int) × Board :=
  let playerSymbol := if aiSymbol = Mark.X then Mark.O else Mark.X
  let fuel := countEmpty board
  let r := (getAvailableMoves board).foldl
    (fun acc move =>
      let b1 := setCell acc.2 move.1 move.2 aiSymbol
      let r := minimax fuel b1 0 false aiSymbol playerSymbol
      let b2 := setCell r.2 move.1 move.2 Mark.E
      if JsNum.lt acc.1.2 r.1 then ((((move.1 : Int), (move.2 : Int)), r.1), b2)
      else (acc.1, b2))
    ((((-1 : Int), (-1 : Int)), JsNum.negInf), board)
  (r.1.1, r.2)

/-- The score `minimax` assigns to a candidate top-level move of
`getBestMove` (place `aiSymbol`, then search with `depth = 0`,
`isMaximizing = false`). -/
def topScore (board : Board) (aiSymbol : Mark) (m : Nat × Nat) : JsNum :=
  (minimax (countEmpty board) (setCell board m.1 m.2 aiSymbol) 0 false
    aiSymbol (if aiSymbol = Mark.X then Mark.O else Mark.X)).1

/-- A well-formed grid: exactly 3 rows of exactly 3 cells, as established by
`resetGame` and preserved by every in-range write. -/
def WF (b : Board) : Prop := b.length = 3 ∧ ∀ row ∈ b, row.length = 3

instance (b : Board) : Decidable (WF b) := by
  unfold WF; infer_instance

/-- The pure accumulator loop of `getBestMove`: running best move and best
score, updated when `score > bestScore`. -/
def bestFold (f : Nat × Nat → JsNum) (moves : List (Nat × Nat)) : (Int × Int) × JsNum :=
  moves.foldl
    (fun acc m => if JsNum.lt acc.2 (f m) then (((m.1 : Int), (m.2 : Int)), f m) else acc)
    (((-1 : Int), (-1 : Int)), JsNum.negInf)

/-- The move the spec describes: among all legal moves achieving the maximum
score, the first in the enumeration order of the move list.  (Modelled from
the spec's tie-break sentence, for comparison with `getBestMove`.) -/
def specFirstBest (f : Nat × Nat → JsNum) (moves : List (Nat × Nat)) : Option (Nat × Nat) :=
  (moves.filter fun m => decide (∀ m' ∈ moves, JsNum.lt (f m) (f m') = false)).head?

/-- A strategy certificate bounding a `minimax` value: `pick` fixes one
move at a node owned by the bounding side, `branch` lists one certificate
per available move (in `getAvailableMoves` order) at a node owned by the
adversary, and `leaf` marks a position the checker evaluates directly. -/
inductive Cert where
  | leaf : Cert
  | pick : Nat → Nat → Cert → Cert
  | branch : List Cert → Cert

/-- Certificate checker for `minimax value ≤ 0`: at a maximizing node every
child must be certified, at a minimizing node one chosen move suffices. -/
def checkLE : Nat → Board → Nat → Bool → Mark → Mark → Cert → Bool
  | fuel, b, depth, x, ai, pl, cert =>
    if checkWin b then
      !(JsNum.lt (JsNum.fin 0)
        (if x then JsNum.fin (-10 + (depth : Int)) else JsNum.fin (10 - (depth : Int))))
    else if isDraw b then true
    else match fuel with
      | 0 => true
      | fuel' + 1 =>
        if x then
          match cert with
          | Cert.branch cs =>
            ((getAvailableMoves b).length == cs.length) &&
            ((getAvailableMoves b).zip cs).all fun p =>
              checkLE fuel' (setCell b p.1.1 p.1.2 ai) (depth + 1) false ai pl p.2
          | _ => false
        else
          match cert with
          | Cert.pick r c cert' =>
            decide ((r, c) ∈ getAvailableMoves b) &&
            checkLE fuel' (setCell b r c pl) (depth + 1) true ai pl cert'
          | _ => false

/-- Certificate checker for `minimax value ≥ 0`: dual of `checkLE`. -/
def checkGE : Nat → Board → Nat → Bool → Mark → Mark → Cert → Bool
  | fuel, b, depth, x, ai, pl, cert =>
    if checkWin b then
      !(JsNum.lt
        (if x then JsNum.fin (-10 + (depth : Int)) else JsNum.fin (10 - (depth : Int)))
        (JsNum.fin 0))
    else if isDraw b then true
    else match fuel with
      | 0 => true
      | fuel' + 1 =>
        if x then
          match cert with
          | Cert.pick r c cert' =>
            decide ((r, c) ∈ getAvailableMoves b) &&
            checkGE fuel' (setCell b r c ai) (depth + 1) false ai pl cert'
          | _ => false
        else
          match cert with
          | Cert.branch cs =>
            ((getAvailableMoves b).length == cs.length) &&
            ((getAvailableMoves b).zip cs).all fun p =>
              checkGE fuel' (setCell b p.1.1 p.1.2 pl) (depth + 1) true ai pl p.2
          | _ => false

/-! Concrete strategy certificates for the empty-board opening analysis:
for every opening move the opponent can hold the first mover to a
non-positive score, and the opening (0,0) guarantees the first mover a
non-negative score.  Together these make (0,0) a maximal-score opening, and
row-major-first among such, which pins down `getBestMove` on the empty
board without expanding the full game tree in a proof. -/

def certLE01 : Cert :=
  (Cert.pick 1 1 (Cert.branch [(Cert.pick 0 2 (Cert.branch [(Cert.pick 2 0 Cert.leaf), (Cert.pick 2 0 Cert.leaf), (Cert.pick 1 0 (Cert.branch [(Cert.pick 2 1 (Cert.branch [Cert.leaf])), (Cert.pick 1 2 Cert.leaf), (Cert.pick 1 2 Cert.leaf)])), (Cert.pick 2 0 Cert.leaf), (Cert.pick 2 0 Cert.leaf)])), (Cert.pick 0 0 (Cert.branch [(Cert.pick 2 2 Cert.leaf), (Cert.pick 2 2 Cert.leaf), (Cert.pick 2 2 Cert.leaf), (Cert.pick 2 2 Cert.leaf), (Cert.pick 1 2 (Cert.branch [(Cert.pick 2 0 (Cert.branch [Cert.leaf])), (Cert.pick 1 0 Cert.leaf), (Cert.pick 1 0 Cert.leaf)]))])), (Cert.pick 0 0 (Cert.branch [(Cert.pick 2 2 Cert.leaf), (Cert.pick 2 2 Cert.leaf), (Cert.pick 2 2 Cert.leaf), (Cert.pick 2 2 Cert.leaf), (Cert.pick 0 2 (Cert.branch [(Cert.pick 2 0 Cert.leaf), (Cert.pick 2 1 (Cert.branch [Cert.leaf])), (Cert.pick 2 0 Cert.leaf)]))])), (Cert.pick 0 0 (Cert.branch [(Cert.pick 2 2 Cert.leaf), (Cert.pick 2 2 Cert.leaf), (Cert.pick 2 2 Cert.leaf), (Cert.pick 2 2 Cert.leaf), (Cert.pick 0 2 (Cert.branch [(Cert.pick 2 0 Cert.leaf), (Cert.pick 2 1 (Cert.branch [Cert.leaf])), (Cert.pick 2 0 Cert.leaf)]))])), (Cert.pick 1 0 (Cert.branch [(Cert.pick 1 2 Cert.leaf), (Cert.pick 1 2 Cert.leaf), (Cert.pick 2 2 (Cert.branch [(Cert.pick 0 2 (Cert.branch [Cert.leaf])), (Cert.pick 0 0 Cert.leaf), (Cert.pick 0 0 Cert.leaf)])), (Cert.pick 1 2 Cert.leaf), (Cert.pick 1 2 Cert.leaf)])), (Cert.pick 0 0 (Cert.branch [(Cert.pick 2 2 Cert.leaf), (Cert.pick 2 2 Cert.leaf), (Cert.pick 2 2 Cert.leaf), (Cert.pick 2 2 Cert.leaf), (Cert.pick 2 0 (Cert.branch [(Cert.pick 1 0 Cert.leaf), (Cert.pick 0 2 Cert.leaf), (Cert.pick 0 2 Cert.leaf)]))])), (Cert.pick 1 0 (Cert.branch [(Cert.pick 1 2 Cert.leaf), (Cert.pick 1 2 Cert.leaf), (Cert.pick 0 2 (Cert.branch [(Cert.pick 2 0 Cert.leaf), (Cert.pick 2 1 (Cert.branch [Cert.leaf])), (Cert.pick 2 0 Cert.leaf)])), (Cert.pick 1 2 Cert.leaf), (Cert.pick 1 2 Cert.leaf)]))]))

def certLE02 : Cert :=
  (Cert.pick 1 1 (Cert.branch [(Cert.pick 0 1 (Cert.branch [(Cert.pick 2 1 Cert.leaf), (Cert.pick 2 1 Cert.leaf), (Cert.pick 2 1 Cert.leaf), (Cert.pick 1 0 (Cert.branch [(Cert.pick 2 2 (Cert.branch [Cert.leaf])), (Cert.pick 1 2 Cert.leaf), (Cert.pick 1 2 Cert.leaf)])), (Cert.pick 2 1 Cert.leaf)])), (Cert.pick 0 0 (Cert.branch [(Cert.pick 2 2 Cert.leaf), (Cert.pick 2 2 Cert.leaf), (Cert.pick 2 2 Cert.leaf), (Cert.pick 2 2 Cert.leaf), (Cert.pick 1 2 (Cert.branch [(Cert.pick 2 0 (Cert.branch [Cert.leaf])), (Cert.pick 1 0 Cert.leaf), (Cert.pick 1 0 Cert.leaf)]))])), (Cert.pick 0 1 (Cert.branch [(Cert.pick 2 1 Cert.leaf), (Cert.pick 2 1 Cert.leaf), (Cert.pick 2 1 Cert.leaf), (Cert.pick 2 2 (Cert.branch [(Cert.pick 2 0 (Cert.branch [Cert.leaf])), (Cert.pick 0 0 Cert.leaf), (Cert.pick 0 0 Cert.leaf)])), (Cert.pick 2 1 Cert.leaf)])), (Cert.pick 2 2 (Cert.branch [(Cert.pick 0 1 (Cert.branch [(Cert.pick 2 1 Cert.leaf), (Cert.pick 2 1 Cert.leaf), (Cert.pick 1 0 (Cert.branch [Cert.leaf]))])), (Cert.pick 0 0 Cert.leaf), (Cert.pick 0 0 Cert.leaf), (Cert.pick 0 0 Cert.leaf), (Cert.pick 0 0 Cert.leaf)])), (Cert.pick 0 1 (Cert.branch [(Cert.pick 2 1 Cert.leaf), (Cert.pick 2 1 Cert.leaf), (Cert.pick 2 1 Cert.leaf), (Cert.pick 2 2 (Cert.branch [(Cert.pick 1 0 (Cert.branch [Cert.leaf])), (Cert.pick 0 0 Cert.leaf), (Cert.pick 0 0 Cert.leaf)])), (Cert.pick 2 1 Cert.leaf)])), (Cert.pick 1 0 (Cert.branch [(Cert.pick 1 2 Cert.leaf), (Cert.pick 1 2 Cert.leaf), (Cert.pick 2 2 (Cert.branch [(Cert.pick 0 1 (Cert.branch [Cert.leaf])), (Cert.pick 0 0 Cert.leaf), (Cert.pick 0 0 Cert.leaf)])), (Cert.pick 1 2 Cert.leaf), (Cert.pick 1 2 Cert.leaf)])), (Cert.pick 1 2 (Cert.branch [(Cert.pick 1 0 Cert.leaf), (Cert.pick 1 0 Cert.leaf), (Cert.pick 0 1 (Cert.branch [(Cert.pick 2 1 Cert.leaf), (Cert.pick 2 1 Cert.leaf), (Cert.pick 2 0 (Cert.branch [Cert.leaf]))])), (Cert.pick 1 0 Cert.leaf), (Cert.pick 1 0 Cert.leaf)]))]))

def certLE10 : Cert :=
  (Cert.pick 1 1 (Cert.branch [(Cert.pick 2 0 (Cert.branch [(Cert.pick 0 2 Cert.leaf), (Cert.pick 0 1 (Cert.branch [(Cert.pick 2 1 Cert.leaf), (Cert.pick 1 2 (Cert.branch [Cert.leaf])), (Cert.pick 2 1 Cert.leaf)])), (Cert.pick 0 2 Cert.leaf), (Cert.pick 0 2 Cert.leaf), (Cert.pick 0 2 Cert.leaf)])), (Cert.pick 0 0 (Cert.branch [(Cert.pick 2 2 Cert.leaf), (Cert.pick 2 2 Cert.leaf), (Cert.pick 2 2 Cert.leaf), (Cert.pick 2 2 Cert.leaf), (Cert.pick 0 2 (Cert.branch [(Cert.pick 2 0 Cert.leaf), (Cert.pick 2 1 (Cert.branch [Cert.leaf])), (Cert.pick 2 0 Cert.leaf)]))])), (Cert.pick 0 1 (Cert.branch [(Cert.pick 2 1 Cert.leaf), (Cert.pick 2 1 Cert.leaf), (Cert.pick 2 1 Cert.leaf), (Cert.pick 2 2 (Cert.branch [(Cert.pick 2 0 (Cert.branch [Cert.leaf])), (Cert.pick 0 0 Cert.leaf), (Cert.pick 0 0 Cert.leaf)])), (Cert.pick 2 1 Cert.leaf)])), (Cert.pick 0 0 (Cert.branch [(Cert.pick 2 2 Cert.leaf), (Cert.pick 2 2 Cert.leaf), (Cert.pick 2 2 Cert.leaf), (Cert.pick 2 2 Cert.leaf), (Cert.pick 0 2 (Cert.branch [(Cert.pick 2 0 Cert.leaf), (Cert.pick 0 1 Cert.leaf), (Cert.pick 0 1 Cert.leaf)]))])), (Cert.pick 0 0 (Cert.branch [(Cert.pick 2 2 Cert.leaf), (Cert.pick 2 2 Cert.leaf), (Cert.pick 2 2 Cert.leaf), (Cert.pick 2 2 Cert.leaf), (Cert.pick 2 1 (Cert.branch [(Cert.pick 0 2 (Cert.branch [Cert.leaf])), (Cert.pick 0 1 Cert.leaf), (Cert.pick 0 1 Cert.leaf)]))])), (Cert.pick 0 0 (Cert.branch [(Cert.pick 2 2 Cert.leaf), (Cert.pick 2 2 Cert.leaf), (Cert.pick 2 2 Cert.leaf), (Cert.pick 2 2 Cert.leaf), (Cert.pick 2 0 (Cert.branch [(Cert.pick 0 2 Cert.leaf), (Cert.pick 1 2 (Cert.branch [Cert.leaf])), (Cert.pick 0 2 Cert.leaf)]))])), (Cert.pick 0 1 (Cert.branch [(Cert.pick 2 1 Cert.leaf), (Cert.pick 2 1 Cert.leaf), (Cert.pick 2 1 Cert.leaf), (Cert.pick 2 1 Cert.leaf), (Cert.pick 2 0 (Cert.branch [(Cert.pick 0 2 Cert.leaf), (Cert.pick 1 2 (Cert.branch [Cert.leaf])), (Cert.pick 0 2 Cert.leaf)]))]))]))

def certLE11 : Cert :=
  (Cert.pick 0 0 (Cert.branch [(Cert.pick 2 1 (Cert.branch [(Cert.pick 2 0 (Cert.branch [(Cert.pick 2 2 Cert.leaf), (Cert.pick 1 0 Cert.leaf), (Cert.pick 1 0 Cert.leaf)])), (Cert.pick 1 2 (Cert.branch [(Cert.pick 2 0 (Cert.branch [Cert.leaf])), (Cert.pick 0 2 (Cert.branch [Cert.leaf])), (Cert.pick 0 2 (Cert.branch [Cert.leaf]))])), (Cert.pick 1 0 (Cert.branch [(Cert.pick 2 0 Cert.leaf), (Cert.pick 0 2 (Cert.branch [Cert.leaf])), (Cert.pick 2 0 Cert.leaf)])), (Cert.pick 0 2 (Cert.branch [(Cert.pick 1 2 (Cert.branch [Cert.leaf])), (Cert.pick 1 0 (Cert.branch [Cert.leaf])), (Cert.pick 1 0 (Cert.branch [Cert.leaf]))])), (Cert.pick 1 0 (Cert.branch [(Cert.pick 2 0 Cert.leaf), (Cert.pick 2 0 Cert.leaf), (Cert.pick 0 2 (Cert.branch [Cert.leaf]))]))])), (Cert.pick 2 0 (Cert.branch [(Cert.pick 1 0 Cert.leaf), (Cert.pick 1 2 (Cert.branch [(Cert.pick 2 1 (Cert.branch [Cert.leaf])), (Cert.pick 0 1 (Cert.branch [Cert.leaf])), (Cert.pick 0 1 (Cert.branch [Cert.leaf]))])), (Cert.pick 1 0 Cert.leaf), (Cert.pick 1 0 Cert.leaf), (Cert.pick 1 0 Cert.leaf)])), (Cert.pick 1 2 (Cert.branch [(Cert.pick 2 1 (Cert.branch [(Cert.pick 2 0 (Cert.branch [Cert.leaf])), (Cert.pick 0 2 (Cert.branch [Cert.leaf])), (Cert.pick 0 2 (Cert.branch [Cert.leaf]))])), (Cert.pick 2 0 (Cert.branch [(Cert.pick 2 1 (Cert.branch [Cert.leaf])), (Cert.pick 0 1 (Cert.branch [Cert.leaf])), (Cert.pick 0 1 (Cert.branch [Cert.leaf]))])), (Cert.pick 0 2 (Cert.branch [(Cert.pick 2 2 Cert.leaf), (Cert.pick 0 1 Cert.leaf), (Cert.pick 0 1 Cert.leaf)])), (Cert.pick 0 1 (Cert.branch [(Cert.pick 2 0 (Cert.branch [Cert.leaf])), (Cert.pick 0 2 Cert.leaf), (Cert.pick 0 2 Cert.leaf)])), (Cert.pick 0 1 (Cert.branch [(Cert.pick 2 0 (Cert.branch [Cert.leaf])), (Cert.pick 0 2 Cert.leaf), (Cert.pick 0 2 Cert.leaf)]))])), (Cert.pick 1 0 (Cert.branch [(Cert.pick 2 0 Cert.leaf), (Cert.pick 2 0 Cert.leaf), (Cert.pick 0 2 (Cert.branch [(Cert.pick 2 1 (Cert.branch [Cert.leaf])), (Cert.pick 0 1 Cert.leaf), (Cert.pick 0 1 Cert.leaf)])), (Cert.pick 2 0 Cert.leaf), (Cert.pick 2 0 Cert.leaf)])), (Cert.pick 0 2 (Cert.branch [(Cert.pick 2 1 (Cert.branch [(Cert.pick 1 2 (Cert.branch [Cert.leaf])), (Cert.pick 1 0 (Cert.branch [Cert.leaf])), (Cert.pick 1 0 (Cert.branch [Cert.leaf]))])), (Cert.pick 0 1 Cert.leaf), (Cert.pick 0 1 Cert.leaf), (Cert.pick 0 1 Cert.leaf), (Cert.pick 0 1 Cert.leaf)])), (Cert.pick 0 1 (Cert.branch [(Cert.pick 2 0 (Cert.branch [(Cert.pick 1 2 (Cert.branch [Cert.leaf])), (Cert.pick 1 0 Cert.leaf), (Cert.pick 1 0 Cert.leaf)])), (Cert.pick 0 2 Cert.leaf), (Cert.pick 0 2 Cert.leaf), (Cert.pick 0 2 Cert.leaf), (Cert.pick 0 2 Cert.leaf)])), (Cert.pick 0 2 (Cert.branch [(Cert.pick 2 1 (Cert.branch [(Cert.pick 1 2 (Cert.branch [Cert.leaf])), (Cert.pick 1 0 (Cert.branch [Cert.leaf])), (Cert.pick 1 0 (Cert.branch [Cert.leaf]))])), (Cert.pick 0 1 Cert.leaf), (Cert.pick 0 1 Cert.leaf), (Cert.pick 0 1 Cert.leaf), (Cert.pick 0 1 Cert.leaf)]))]))

def certLE12 : Cert :=
  (Cert.pick 1 1 (Cert.branch [(Cert.pick 0 1 (Cert.branch [(Cert.pick 2 1 Cert.leaf), (Cert.pick 2 1 Cert.leaf), (Cert.pick 2 1 Cert.leaf), (Cert.pick 2 0 (Cert.branch [(Cert.pick 2 2 (Cert.branch [Cert.leaf])), (Cert.pick 0 2 Cert.leaf), (Cert.pick 0 2 Cert.leaf)])), (Cert.pick 2 1 Cert.leaf)])), (Cert.pick 0 0 (Cert.branch [(Cert.pick 2 2 Cert.leaf), (Cert.pick 2 2 Cert.leaf), (Cert.pick 2 2 Cert.leaf), (Cert.pick 2 2 Cert.leaf), (Cert.pick 0 2 (Cert.branch [(Cert.pick 2 0 Cert.leaf), (Cert.pick 2 1 (Cert.branch [Cert.leaf])), (Cert.pick 2 0 Cert.leaf)]))])), (Cert.pick 2 2 (Cert.branch [(Cert.pick 0 1 (Cert.branch [(Cert.pick 2 1 Cert.leaf), (Cert.pick 2 1 Cert.leaf), (Cert.pick 1 0 (Cert.branch [Cert.leaf]))])), (Cert.pick 0 0 Cert.leaf), (Cert.pick 0 0 Cert.leaf), (Cert.pick 0 0 Cert.leaf), (Cert.pick 0 0 Cert.leaf)])), (Cert.pick 0 0 (Cert.branch [(Cert.pick 2 2 Cert.leaf), (Cert.pick 2 2 Cert.leaf), (Cert.pick 2 2 Cert.leaf), (Cert.pick 2 2 Cert.leaf), (Cert.pick 0 2 (Cert.branch [(Cert.pick 2 0 Cert.leaf), (Cert.pick 0 1 Cert.leaf), (Cert.pick 0 1 Cert.leaf)]))])), (Cert.pick 0 1 (Cert.branch [(Cert.pick 2 1 Cert.leaf), (Cert.pick 2 1 Cert.leaf), (Cert.pick 2 1 Cert.leaf), (Cert.pick 2 2 (Cert.branch [(Cert.pick 1 0 (Cert.branch [Cert.leaf])), (Cert.pick 0 0 Cert.leaf), (Cert.pick 0 0 Cert.leaf)])), (Cert.pick 2 1 Cert.leaf)])), (Cert.pick 0 2 (Cert.branch [(Cert.pick 2 0 Cert.leaf), (Cert.pick 2 0 Cert.leaf), (Cert.pick 2 0 Cert.leaf), (Cert.pick 2 2 (Cert.branch [(Cert.pick 1 0 (Cert.branch [Cert.leaf])), (Cert.pick 0 0 Cert.leaf), (Cert.pick 0 0 Cert.leaf)])), (Cert.pick 2 0 Cert.leaf)])), (Cert.pick 0 2 (Cert.branch [(Cert.pick 2 0 Cert.leaf), (Cert.pick 2 0 Cert.leaf), (Cert.pick 2 0 Cert.leaf), (Cert.pick 2 1 (Cert.branch [(Cert.pick 0 1 Cert.leaf), (Cert.pick 0 0 (Cert.branch [Cert.leaf])), (Cert.pick 0 1 Cert.leaf)])), (Cert.pick 2 0 Cert.leaf)]))]))

def certLE20 : Cert :=
  (Cert.pick 1 1 (Cert.branch [(Cert.pick 1 0 (Cert.branch [(Cert.pick 1 2 Cert.leaf), (Cert.pick 1 2 Cert.leaf), (Cert.pick 0 1 (Cert.branch [(Cert.pick 2 1 Cert.leaf), (Cert.pick 2 2 (Cert.branch [Cert.leaf])), (Cert.pick 2 1 Cert.leaf)])), (Cert.pick 1 2 Cert.leaf), (Cert.pick 1 2 Cert.leaf)])), (Cert.pick 1 0 (Cert.branch [(Cert.pick 1 2 Cert.leaf), (Cert.pick 1 2 Cert.leaf), (Cert.pick 2 2 (Cert.branch [(Cert.pick 0 2 (Cert.branch [Cert.leaf])), (Cert.pick 0 0 Cert.leaf), (Cert.pick 0 0 Cert.leaf)])), (Cert.pick 1 2 Cert.leaf), (Cert.pick 1 2 Cert.leaf)])), (Cert.pick 0 1 (Cert.branch [(Cert.pick 2 1 Cert.leaf), (Cert.pick 2 1 Cert.leaf), (Cert.pick 2 1 Cert.leaf), (Cert.pick 2 2 (Cert.branch [(Cert.pick 1 0 (Cert.branch [Cert.leaf])), (Cert.pick 0 0 Cert.leaf), (Cert.pick 0 0 Cert.leaf)])), (Cert.pick 2 1 Cert.leaf)])), (Cert.pick 0 0 (Cert.branch [(Cert.pick 2 2 Cert.leaf), (Cert.pick 2 2 Cert.leaf), (Cert.pick 2 2 Cert.leaf), (Cert.pick 2 2 Cert.leaf), (Cert.pick 2 1 (Cert.branch [(Cert.pick 0 2 (Cert.branch [Cert.leaf])), (Cert.pick 0 1 Cert.leaf), (Cert.pick 0 1 Cert.leaf)]))])), (Cert.pick 0 1 (Cert.branch [(Cert.pick 2 1 Cert.leaf), (Cert.pick 2 1 Cert.leaf), (Cert.pick 2 1 Cert.leaf), (Cert.pick 2 2 (Cert.branch [(Cert.pick 1 0 (Cert.branch [Cert.leaf])), (Cert.pick 0 0 Cert.leaf), (Cert.pick 0 0 Cert.leaf)])), (Cert.pick 2 1 Cert.leaf)])), (Cert.pick 2 2 (Cert.branch [(Cert.pick 1 0 (Cert.branch [(Cert.pick 1 2 Cert.leaf), (Cert.pick 1 2 Cert.leaf), (Cert.pick 0 1 (Cert.branch [Cert.leaf]))])), (Cert.pick 0 0 Cert.leaf), (Cert.pick 0 0 Cert.leaf), (Cert.pick 0 0 Cert.leaf), (Cert.pick 0 0 Cert.leaf)])), (Cert.pick 2 1 (Cert.branch [(Cert.pick 0 1 Cert.leaf), (Cert.pick 1 0 (Cert.branch [(Cert.pick 1 2 Cert.leaf), (Cert.pick 1 2 Cert.leaf), (Cert.pick 0 2 (Cert.branch [Cert.leaf]))])), (Cert.pick 0 1 Cert.leaf), (Cert.pick 0 1 Cert.leaf), (Cert.pick 0 1 Cert.leaf)]))]))

def certLE21 : Cert :=
  (Cert.pick 1 1 (Cert.branch [(Cert.pick 1 0 (Cert.branch [(Cert.pick 1 2 Cert.leaf), (Cert.pick 1 2 Cert.leaf), (Cert.pick 0 2 (Cert.branch [(Cert.pick 2 0 Cert.leaf), (Cert.pick 2 2 (Cert.branch [Cert.leaf])), (Cert.pick 2 0 Cert.leaf)])), (Cert.pick 1 2 Cert.leaf), (Cert.pick 1 2 Cert.leaf)])), (Cert.pick 0 0 (Cert.branch [(Cert.pick 2 2 Cert.leaf), (Cert.pick 2 2 Cert.leaf), (Cert.pick 2 2 Cert.leaf), (Cert.pick 2 2 Cert.leaf), (Cert.pick 2 0 (Cert.branch [(Cert.pick 1 0 Cert.leaf), (Cert.pick 0 2 Cert.leaf), (Cert.pick 0 2 Cert.leaf)]))])), (Cert.pick 1 0 (Cert.branch [(Cert.pick 1 2 Cert.leaf), (Cert.pick 1 2 Cert.leaf), (Cert.pick 2 2 (Cert.branch [(Cert.pick 0 1 (Cert.branch [Cert.leaf])), (Cert.pick 0 0 Cert.leaf), (Cert.pick 0 0 Cert.leaf)])), (Cert.pick 1 2 Cert.leaf), (Cert.pick 1 2 Cert.leaf)])), (Cert.pick 0 0 (Cert.branch [(Cert.pick 2 2 Cert.leaf), (Cert.pick 2 2 Cert.leaf), (Cert.pick 2 2 Cert.leaf), (Cert.pick 2 2 Cert.leaf), (Cert.pick 2 0 (Cert.branch [(Cert.pick 0 2 Cert.leaf), (Cert.pick 1 2 (Cert.branch [Cert.leaf])), (Cert.pick 0 2 Cert.leaf)]))])), (Cert.pick 0 2 (Cert.branch [(Cert.pick 2 0 Cert.leaf), (Cert.pick 2 0 Cert.leaf), (Cert.pick 2 0 Cert.leaf), (Cert.pick 2 2 (Cert.branch [(Cert.pick 1 0 (Cert.branch [Cert.leaf])), (Cert.pick 0 0 Cert.leaf), (Cert.pick 0 0 Cert.leaf)])), (Cert.pick 2 0 Cert.leaf)])), (Cert.pick 2 2 (Cert.branch [(Cert.pick 1 0 (Cert.branch [(Cert.pick 1 2 Cert.leaf), (Cert.pick 1 2 Cert.leaf), (Cert.pick 0 1 (Cert.branch [Cert.leaf]))])), (Cert.pick 0 0 Cert.leaf), (Cert.pick 0 0 Cert.leaf), (Cert.pick 0 0 Cert.leaf), (Cert.pick 0 0 Cert.leaf)])), (Cert.pick 2 0 (Cert.branch [(Cert.pick 0 2 Cert.leaf), (Cert.pick 0 2 Cert.leaf), (Cert.pick 1 2 (Cert.branch [(Cert.pick 1 0 Cert.leaf), (Cert.pick 1 0 Cert.leaf), (Cert.pick 0 0 (Cert.branch [Cert.leaf]))])), (Cert.pick 0 2 Cert.leaf), (Cert.pick 0 2 Cert.leaf)]))]))

def certLE22 : Cert :=
  (Cert.pick 1 1 (Cert.branch [(Cert.pick 0 1 (Cert.branch [(Cert.pick 2 1 Cert.leaf), (Cert.pick 2 1 Cert.leaf), (Cert.pick 2 1 Cert.leaf), (Cert.pick 2 1 Cert.leaf), (Cert.pick 2 0 (Cert.branch [(Cert.pick 1 2 (Cert.branch [Cert.leaf])), (Cert.pick 0 2 Cert.leaf), (Cert.pick 0 2 Cert.leaf)]))])), (Cert.pick 1 0 (Cert.branch [(Cert.pick 1 2 Cert.leaf), (Cert.pick 1 2 Cert.leaf), (Cert.pick 0 2 (Cert.branch [(Cert.pick 2 0 Cert.leaf), (Cert.pick 2 1 (Cert.branch [Cert.leaf])), (Cert.pick 2 0 Cert.leaf)])), (Cert.pick 1 2 Cert.leaf), (Cert.pick 1 2 Cert.leaf)])), (Cert.pick 1 2 (Cert.branch [(Cert.pick 1 0 Cert.leaf), (Cert.pick 1 0 Cert.leaf), (Cert.pick 0 1 (Cert.branch [(Cert.pick 2 1 Cert.leaf), (Cert.pick 2 1 Cert.leaf), (Cert.pick 2 0 (Cert.branch [Cert.leaf]))])), (Cert.pick 1 0 Cert.leaf), (Cert.pick 1 0 Cert.leaf)])), (Cert.pick 0 1 (Cert.branch [(Cert.pick 2 1 Cert.leaf), (Cert.pick 2 1 Cert.leaf), (Cert.pick 2 1 Cert.leaf), (Cert.pick 2 1 Cert.leaf), (Cert.pick 2 0 (Cert.branch [(Cert.pick 0 2 Cert.leaf), (Cert.pick 1 2 (Cert.branch [Cert.leaf])), (Cert.pick 0 2 Cert.leaf)]))])), (Cert.pick 0 2 (Cert.branch [(Cert.pick 2 0 Cert.leaf), (Cert.pick 2 0 Cert.leaf), (Cert.pick 2 0 Cert.leaf), (Cert.pick 2 1 (Cert.branch [(Cert.pick 0 1 Cert.leaf), (Cert.pick 0 0 (Cert.branch [Cert.leaf])), (Cert.pick 0 1 Cert.leaf)])), (Cert.pick 2 0 Cert.leaf)])), (Cert.pick 2 1 (Cert.branch [(Cert.pick 0 1 Cert.leaf), (Cert.pick 1 0 (Cert.branch [(Cert.pick 1 2 Cert.leaf), (Cert.pick 1 2 Cert.leaf), (Cert.pick 0 2 (Cert.branch [Cert.leaf]))])), (Cert.pick 0 1 Cert.leaf), (Cert.pick 0 1 Cert.leaf), (Cert.pick 0 1 Cert.leaf)])), (Cert.pick 2 0 (Cert.branch [(Cert.pick 0 2 Cert.leaf), (Cert.pick 0 2 Cert.leaf), (Cert.pick 1 2 (Cert.branch [(Cert.pick 1 0 Cert.leaf), (Cert.pick 1 0 Cert.leaf), (Cert.pick 0 0 (Cert.branch [Cert.leaf]))])), (Cert.pick 0 2 Cert.leaf), (Cert.pick 0 2 Cert.leaf)]))]))

def certGE00 : Cert :=
  (Cert.branch [(Cert.pick 1 0 (Cert.branch [(Cert.pick 2 0 Cert.leaf), (Cert.pick 2 0 Cert.leaf), (Cert.pick 2 0 Cert.leaf), (Cert.pick 1 1 (Cert.branch [(Cert.pick 1 2 Cert.leaf), (Cert.pick 2 2 Cert.leaf), (Cert.pick 1 2 Cert.leaf), (Cert.pick 1 2 Cert.leaf)])), (Cert.pick 2 0 Cert.leaf), (Cert.pick 2 0 Cert.leaf)])), (Cert.pick 1 0 (Cert.branch [(Cert.pick 2 0 Cert.leaf), (Cert.pick 2 0 Cert.leaf), (Cert.pick 2 0 Cert.leaf), (Cert.pick 1 1 (Cert.branch [(Cert.pick 1 2 Cert.leaf), (Cert.pick 2 2 Cert.leaf), (Cert.pick 1 2 Cert.leaf), (Cert.pick 1 2 Cert.leaf)])), (Cert.pick 2 0 Cert.leaf), (Cert.pick 2 0 Cert.leaf)])), (Cert.pick 0 1 (Cert.branch [(Cert.pick 1 1 (Cert.branch [(Cert.pick 2 1 Cert.leaf), (Cert.pick 2 1 Cert.leaf), (Cert.pick 2 2 Cert.leaf), (Cert.pick 2 1 Cert.leaf)])), (Cert.pick 0 2 Cert.leaf), (Cert.pick 0 2 Cert.leaf), (Cert.pick 0 2 Cert.leaf), (Cert.pick 0 2 Cert.leaf), (Cert.pick 0 2 Cert.leaf)])), (Cert.pick 0 1 (Cert.branch [(Cert.pick 2 0 (Cert.branch [(Cert.pick 1 2 (Cert.branch [(Cert.pick 2 2 Cert.leaf), (Cert.pick 2 1 Cert.leaf)])), (Cert.pick 1 0 Cert.leaf), (Cert.pick 1 0 Cert.leaf), (Cert.pick 1 0 Cert.leaf)])), (Cert.pick 0 2 Cert.leaf), (Cert.pick 0 2 Cert.leaf), (Cert.pick 0 2 Cert.leaf), (Cert.pick 0 2 Cert.leaf), (Cert.pick 0 2 Cert.leaf)])), (Cert.pick 0 2 (Cert.branch [(Cert.pick 1 1 (Cert.branch [(Cert.pick 2 0 Cert.leaf), (Cert.pick 2 2 Cert.leaf), (Cert.pick 2 0 Cert.leaf), (Cert.pick 2 0 Cert.leaf)])), (Cert.pick 0 1 Cert.leaf), (Cert.pick 0 1 Cert.leaf), (Cert.pick 0 1 Cert.leaf), (Cert.pick 0 1 Cert.leaf), (Cert.pick 0 1 Cert.leaf)])), (Cert.pick 0 1 (Cert.branch [(Cert.pick 1 1 (Cert.branch [(Cert.pick 2 1 Cert.leaf), (Cert.pick 2 1 Cert.leaf), (Cert.pick 2 2 Cert.leaf), (Cert.pick 2 1 Cert.leaf)])), (Cert.pick 0 2 Cert.leaf), (Cert.pick 0 2 Cert.leaf), (Cert.pick 0 2 Cert.leaf), (Cert.pick 0 2 Cert.leaf), (Cert.pick 0 2 Cert.leaf)])), (Cert.pick 0 2 (Cert.branch [(Cert.pick 1 1 (Cert.branch [(Cert.pick 2 0 Cert.leaf), (Cert.pick 2 0 Cert.leaf), (Cert.pick 2 2 Cert.leaf), (Cert.pick 2 0 Cert.leaf)])), (Cert.pick 0 1 Cert.leaf), (Cert.pick 0 1 Cert.leaf), (Cert.pick 0 1 Cert.leaf), (Cert.pick 0 1 Cert.leaf), (Cert.pick 0 1 Cert.leaf)])), (Cert.pick 0 2 (Cert.branch [(Cert.pick 2 0 (Cert.branch [(Cert.pick 1 1 Cert.leaf), (Cert.pick 1 0 Cert.leaf), (Cert.pick 1 0 Cert.leaf), (Cert.pick 1 0 Cert.leaf)])), (Cert.pick 0 1 Cert.leaf), (Cert.pick 0 1 Cert.leaf), (Cert.pick 0 1 Cert.leaf), (Cert.pick 0 1 Cert.leaf), (Cert.pick 0 1 Cert.leaf)]))])

/-- The `gameStatus` string: `'Playing'`, `'X Wins!'` / `'O Wins!'`, `'Draw!'`. -/
inductive Status where
  | playing
  | wins (p : Mark)
  | draw
deriving DecidableEq, Repr

/-- The `gameMode` string: `''`, `'single'` or `'multi'`. -/
inductive Mode where
  | unset
  | single
  | multi
deriving DecidableEq, Repr

/-- The component fields of `GameBoardComponent`.  `selectedPlayer = Mark.E`
models the empty string (no selection yet). -/
structure GameState where
  grid : Board
  currentPlayer : Mark
  gameStatus : Status
  selectedPlayer : Mark
  gameStarted : Bool
  gameMode : Mode
deriving DecidableEq, Repr

/-- `resetGame()`: fresh 3x3 grid, `currentPlayer = selectedPlayer || 'X'`,
status `'Playing'`. -/
def resetGame (st : GameState) : GameState :=
  { st with
    grid := emptyGrid
    currentPlayer := if st.selectedPlayer = Mark.E then Mark.X else st.selectedPlayer
    gameStatus := Status.playing }

/-- The state after the constructor runs (field initializers, then
`resetGame()`; the pre-reset field values are all overwritten or unused). -/
def initialState : GameState :=
  resetGame
    { grid := []
      currentPlayer := Mark.E
      gameStatus := Status.playing
      selectedPlayer := Mark.E
      gameStarted := false
      gameMode := Mode.unset }

/-- `selectPlayer(player)`. -/
def selectPlayer (st : GameState) (p : Mark) : GameState :=
  { st with selectedPlayer := p }

/-- `setGameMode(mode)`. -/
def setGameMode (st : GameState) (m : Mode) : GameState :=
  { st with gameMode := m, gameStarted := false }

/-- JavaScript `grid[i]` for an arbitrary (possibly negative) index: an
out-of-range or negative index yields `undefined` (`none`); assigning into
that `undefined` row is the `TypeError` modelled by `none` results below. -/
def rowAt (g : Board) (i : Int) : Option (List Mark) :=
  if i < 0 then none else g[i.toNat]?

/-- `aiMove()`.  `none` models the thrown `TypeError` when
`grid[bestMove[0]]` is `undefined` (which happens exactly when `getBestMove`
returned the `[-1, -1]` sentinel).  When the row exists, the chosen move
came from `getAvailableMoves`, so both coordinates are in `[0, 2]` and the
write `grid[r][c] = aiSymbol` is the in-range `List.set`. -/
def aiMove (st : GameState) : Option GameState :=
  let aiSymbol := if st.selectedPlayer = Mark.X then Mark.O else Mark.X
  let r := getBestMove st.grid aiSymbol
  match rowAt r.2 r.1.1 with
  | none => none
  | some row =>
    let g2 := r.2.set r.1.1.toNat (row.set r.1.2.toNat aiSymbol)
    let st2 := { st with grid := g2 }
    if checkWin st2.grid then some { st2 with gameStatus := Status.wins aiSymbol }
    else if isDraw st2.grid then some { st2 with gameStatus := Status.draw }
    else some { st2 with currentPlayer := st.selectedPlayer }

/-- `makeMove(row, col)`.  The guard reads `grid[row][col]` first: a missing
row (`row` outside the grid; negative indices behave the same way) makes
that read throw (`none`).  A missing cell in an existing row is `undefined`,
which is falsy exactly like the empty string.  The write into an existing
row is `List.set`; a write past the row's end (JavaScript array extension
outside the 3x3 region) is dropped by `List.set`, which does not affect any
read the component ever performs on the 3x3 region. -/
def makeMove (st : GameState) (row col : Nat) : Option GameState :=
  match st.grid[row]? with
  | none => none
  | some r =>
    let cellFalsy : Bool :=
      match r[col]? with
      | none => true
      | some m => m == Mark.E
    if cellFalsy && st.gameStatus == Status.playing then
      let g2 := st.grid.set row (r.set col st.currentPlayer)
      let st2 := { st with grid := g2 }
      if checkWin st2.grid then some { st2 with gameStatus := Status.wins st.currentPlayer }
      else if isDraw st2.grid then some { st2 with gameStatus := Status.draw }
      else
        let st3 := { st2 with
          currentPlayer := if st.currentPlayer = Mark.X then Mark.O else Mark.X }
        if st3.gameMode = Mode.single then aiMove st3 else some st3
    else some st

/-- `startGame()`: commits the selection, lets the automated side move first
when the human chose `'O'` in single mode, and then unconditionally calls
`resetGame()`. -/
def startGame (st : GameState) : Option GameState :=
  if st.selectedPlayer ≠ Mark.E then
    let st1 := { st with gameStarted := true }
    let st2 : Option GameState :=
      if st1.gameMode = Mode.single then
        if st1.selectedPlayer = Mark.X then some { st1 with currentPlayer := Mark.X }
        else aiMove { st1 with currentPlayer := Mark.X }
      else some st1
    st2.map resetGame
  else some st

/-- `resetPage()`. -/
def resetPage (st : GameState) : GameState :=
  { resetGame st with
    selectedPlayer := Mark.E
    gameStarted := false
    gameMode := Mode.unset }

/-- Scenario A of the spec: `[[X,O,X],[O,X,O],[Empty,Empty,Empty]]`. -/
def scenarioA : Board :=
  [[Mark.X, Mark.O, Mark.X], [Mark.O, Mark.X, Mark.O], [Mark.E, Mark.E, Mark.E]]

/-- A full board with a completed line (row 0 is all `X`). -/
def winFull : Board :=
  [[Mark.X, Mark.X, Mark.X], [Mark.O, Mark.O, Mark.X], [Mark.X, Mark.O, Mark.O]]

/-- Scenario C of the spec: a full board with no completed line. -/
def drawB : Board :=
  [[Mark.X, Mark.O, Mark.X], [Mark.X, Mark.O, Mark.O], [Mark.O, Mark.X, Mark.X]]

/-- An in-progress two-human game on a fresh board, X to move. -/
def multiState : GameState :=
  { grid := emptyGrid
    currentPlayer := Mark.X
    gameStatus := Status.playing
    selectedPlayer := Mark.X
    gameStarted := true
    gameMode := Mode.multi }

/-- An in-progress two-human game whose centre cell is occupied by `X`. -/
def occupiedState : GameState :=
  { multiState with
    grid := [[Mark.E, Mark.E, Mark.E], [Mark.E, Mark.X, Mark.E], [Mark.E, Mark.E, Mark.E]] }

/-- A game that has reached Scenario C's full drawn board. -/
def drawState : GameState := { multiState with grid := drawB }

/-- The state just before `startGame()` in a single-player game where the
human picked `'O'`: constructor, then `setGameMode('single')`, then
`selectPlayer('O')`. -/
def startState : GameState :=
  selectPlayer (setGameMode initialState Mode.single) Mark.O

/-- The state `startGame()` hands to `aiMove()` in a single-player game
where the human selected `'O'`. -/
def preStartState : GameState :=
  { startState with gameStarted := true, currentPlayer := Mark.X }

theorem JsNum.lt_irrefl (a : JsNum) : JsNum.lt a a = false := by
  cases a <;> simp [JsNum.lt]

theorem JsNum.lt_trans {a b c : JsNum} (h1 : JsNum.lt a b = true)
    (h2 : JsNum.lt b c = true) : JsNum.lt a c = true := by
  cases a <;> cases b <;> cases c <;> simp_all [JsNum.lt] <;> omega

theorem JsNum.lt_of_not_lt_of_lt {a b c : JsNum} (h1 : JsNum.lt a b = false)
    (h2 : JsNum.lt a c = true) : JsNum.lt b c = true := by
  cases a <;> cases b <;> cases c <;> simp_all [JsNum.lt] <;> omega

theorem JsNum.lt_asymm {a b : JsNum} (h : JsNum.lt a b = true) :
    JsNum.lt b a = false := by
  cases a <;> cases b <;> simp_all [JsNum.lt] <;> omega

theorem JsNum.not_lt_trans {a b c : JsNum} (h1 : JsNum.lt a b = false)
    (h2 : JsNum.lt b c = false) : JsNum.lt a c = false := by
  cases a <;> cases b <;> cases c <;> simp_all [JsNum.lt] <;> omega

theorem JsNum.lt_of_lt_of_not_lt {a b c : JsNum} (h1 : JsNum.lt a b = true)
    (h2 : JsNum.lt c b = false) : JsNum.lt a c = true := by
  cases a <;> cases b <;> cases c <;> simp_all [JsNum.lt] <;> omega

theorem JsNum.lt_fin_fin (a b : Int) :
    JsNum.lt (JsNum.fin a) (JsNum.fin b) = decide (a < b) := rfl

theorem JsNum.lt_negInf_eq_false_iff {a : JsNum} :
    JsNum.lt JsNum.negInf a = false ↔ a = JsNum.negInf := by
  cases a <;> simp [JsNum.lt]

theorem set_getD_eq_self {α : Type} (d : α) :
    ∀ (l : List α) (i : Nat), l.set i (l.getD i d) = l := by
  intro l
  induction l with
  | nil => intro i; simp
  | cons x xs ih =>
    intro i
    cases i with
    | zero => simp
    | succ j => simp only [List.getD_cons_succ, List.set_cons_succ, ih j]

theorem setCell_out_of_range {b : Board} {r : Nat} (h : b.length ≤ r) (c : Nat) (m : Mark) :
    setCell b r c m = b := by
  unfold setCell
  exact List.set_eq_of_length_le h

/-- Undoing a write: if the cell was empty, placing a mark and then writing
the empty mark back restores the original grid. -/
theorem setCell_setCell {b : Board} {r c : Nat} (m : Mark)
    (h : getCell b r c = Mark.E) :
    setCell (setCell b r c m) r c Mark.E = b := by
  by_cases hr : r < b.length
  · have hrow : (setCell b r c m).getD r [] = (b.getD r []).set c m := by
      unfold setCell
      rw [List.getD_eq_getElem _ _ (by simpa using hr), List.getElem_set_self]
    unfold setCell at hrow ⊢
    rw [hrow, List.set_set, List.set_set]
    have hcell : (b.getD r []).set c Mark.E = b.getD r [] := by
      have h' : (b.getD r []).getD c Mark.E = Mark.E := h
      have := set_getD_eq_self Mark.E (b.getD r []) c
      rwa [h'] at this
    rw [hcell, set_getD_eq_self]
  · rw [setCell_out_of_range (Nat.le_of_not_lt hr), setCell_out_of_range (Nat.le_of_not_lt hr)]

theorem mem_getAvailableMoves {b : Board} {m : Nat × Nat} :
    m ∈ getAvailableMoves b ↔ m.1 < 3 ∧ m.2 < 3 ∧ getCell b m.1 m.2 = Mark.E := by
  obtain ⟨r, c⟩ := m
  simp only [getAvailableMoves, List.mem_flatMap, List.mem_map, List.mem_filter,
    List.mem_range, beq_iff_eq]
  constructor
  · rintro ⟨row, hrow, col, ⟨hcol, hE⟩, heq⟩
    obtain ⟨rfl, rfl⟩ := Prod.mk.injEq .. ▸ heq
    exact ⟨hrow, hcol, hE⟩
  · rintro ⟨hr, hc, hE⟩
    exact ⟨r, hr, c, ⟨hc, hE⟩, rfl⟩

theorem WF_setCell {b : Board} (h : WF b) (r c : Nat) (m : Mark) :
    WF (setCell b r c m) := by
  by_cases hr : r < b.length
  · refine ⟨by simpa [setCell] using h.1, ?_⟩
    intro row hrow
    rcases List.mem_or_eq_of_mem_set hrow with hmem | rfl
    · exact h.2 row hmem
    · rw [List.getD_eq_getElem _ _ hr, List.length_set]
      exact h.2 _ (List.getElem_mem hr)
  · rw [setCell_out_of_range (Nat.le_of_not_lt hr)]; exact h

theorem count_set_of_mem {row : List Mark} :
    ∀ {c : Nat}, c < row.length → row.getD c Mark.E = Mark.E → ∀ {m : Mark}, m ≠ Mark.E →
      (row.set c m).count Mark.E + 1 = row.count Mark.E := by
  induction row with
  | nil => intro c hc; simp at hc
  | cons x xs ih =>
    intro c hc hE m hm
    cases c with
    | zero =>
      simp only [List.getD_cons_zero] at hE
      subst hE
      simp [List.count_cons, hm]
    | succ j =>
      simp only [List.getD_cons_succ] at hE
      have := ih (Nat.lt_of_succ_lt_succ hc) hE hm
      simp only [List.set_cons_succ, List.count_cons]
      omega

theorem countEmpty_setCell' {b : Board} :
    ∀ {r c : Nat}, r < b.length → c < (b.getD r []).length →
      getCell b r c = Mark.E → ∀ {m : Mark}, m ≠ Mark.E →
      countEmpty (setCell b r c m) + 1 = countEmpty b := by
  induction b with
  | nil => intro r c hr; simp at hr
  | cons row rest ih =>
    intro r c hr hc hE m hm
    cases r with
    | zero =>
      simp only [List.getD_cons_zero] at hc hE
      unfold setCell at *
      simp only [List.getD_cons_zero, List.set_cons_zero, countEmpty, List.map_cons,
        List.sum_cons] at *
      have := count_set_of_mem hc hE hm (m := m)
      omega
    | succ j =>
      simp only [List.getD_cons_succ] at hc hE
      unfold setCell at *
      simp only [List.getD_cons_succ, List.set_cons_succ, countEmpty, List.map_cons,
        List.sum_cons] at *
      have := ih (Nat.lt_of_succ_lt_succ hr) hc hE hm
      omega

theorem countEmpty_setCell {b : Board} (hWF : WF b) {r c : Nat} (hr : r < 3) (hc : c < 3)
    (hE : getCell b r c = Mark.E) {m : Mark} (hm : m ≠ Mark.E) :
    countEmpty (setCell b r c m) + 1 = countEmpty b := by
  have hr' : r < b.length := hWF.1 ▸ hr
  have hrowlen : (b.getD r []).length = 3 := by
    rw [List.getD_eq_getElem _ _ hr']
    exact hWF.2 _ (List.getElem_mem hr')
  exact countEmpty_setCell' hr' (hrowlen ▸ hc) hE hm

theorem isDraw_iff_countEmpty {b : Board} : isDraw b = true ↔ countEmpty b = 0 := by
  simp only [isDraw, List.all_eq_true, bne_iff_ne, ne_eq, countEmpty,
    List.sum_eq_zero_iff, List.mem_map]
  constructor
  · rintro h x ⟨row, hrow, rfl⟩
    rw [List.count_eq_zero]
    intro hmem
    exact h row hrow Mark.E hmem rfl
  · intro h row hrow cell hcell
    intro hEq
    subst hEq
    have := h (row.count Mark.E) ⟨row, hrow, rfl⟩
    rw [List.count_eq_zero] at this
    exact this hcell

theorem countEmpty_le_nine {b : Board} (h : WF b) : countEmpty b ≤ 9 := by
  obtain ⟨r0, r1, r2, rfl⟩ := List.length_eq_three.mp h.1
  have h0 := h.2 r0 (by simp)
  have h1 := h.2 r1 (by simp)
  have h2 := h.2 r2 (by simp)
  have c0 := List.count_le_length (l := r0) (a := Mark.E)
  have c1 := List.count_le_length (l := r1) (a := Mark.E)
  have c2 := List.count_le_length (l := r2) (a := Mark.E)
  simp only [countEmpty, List.map_cons, List.map_nil, List.sum_cons, List.sum_nil]
  omega

theorem moves_ne_nil {b : Board} (hWF : WF b) (hD : isDraw b = false) :
    getAvailableMoves b ≠ [] := by
  have hne : countEmpty b ≠ 0 := fun h =>
    absurd (isDraw_iff_countEmpty.mpr h) (by simp [hD])
  have : ∃ row ∈ b, Mark.E ∈ row := by
    by_contra hall
    push_neg at hall
    apply hne
    simp only [countEmpty, List.sum_eq_zero_iff, List.mem_map]
    rintro x ⟨row, hrow, rfl⟩
    rw [List.count_eq_zero]
    exact hall row hrow
  obtain ⟨row, hrow, hcell⟩ := this
  obtain ⟨r, hr, rfl⟩ := List.mem_iff_getElem.mp hrow
  obtain ⟨c, hc, hEc⟩ := List.mem_iff_getElem.mp hcell
  have hr3 : r < 3 := hWF.1 ▸ hr
  have hc3 : c < 3 := (hWF.2 _ (List.getElem_mem hr)) ▸ hc
  have hget : getCell b r c = Mark.E := by
    unfold getCell
    rw [List.getD_eq_getElem _ _ hr, List.getD_eq_getElem _ _ hc]
    exact hEc
  exact List.ne_nil_of_mem ((@mem_getAvailableMoves b (r, c)).mpr ⟨hr3, hc3, hget⟩)

theorem foldl_snd_eq {α : Type} (step : α × Board → Nat × Nat → α × Board) (b : Board) :
    ∀ (moves : List (Nat × Nat)),
      (∀ (s : α) (m : Nat × Nat), m ∈ moves → (step (s, b) m).2 = b) →
      ∀ s, (moves.foldl step (s, b)).2 = b := by
  intro moves
  induction moves with
  | nil => intro _ s; rfl
  | cons m ms ih =>
    intro h s
    rw [List.foldl_cons]
    have h2 : step (s, b) m = ((step (s, b) m).1, b) :=
      Prod.ext rfl (h s m (List.mem_cons_self m ms))
    rw [h2]
    exact ih (fun s' m' hm' => h s' m' (List.mem_cons_of_mem _ hm')) _

theorem foldl_pair_split {α : Type} (step : α × Board → Nat × Nat → α × Board)
    (pstep : α → Nat × Nat → α) (b : Board) :
    ∀ (moves : List (Nat × Nat)),
      (∀ (s : α) (m : Nat × Nat), m ∈ moves → step (s, b) m = (pstep s m, b)) →
      ∀ s, moves.foldl step (s, b) = (moves.foldl pstep s, b) := by
  intro moves
  induction moves with
  | nil => intro _ s; rfl
  | cons m ms ih =>
    intro h s
    rw [List.foldl_cons, List.foldl_cons, h s m (List.mem_cons_self m ms)]
    exact ih (fun s' m' hm' => h s' m' (List.mem_cons_of_mem _ hm')) _

/-- Place-then-undo: every `minimax` call hands the board back exactly as it
received it. -/
theorem minimax_board (fuel : Nat) :
    ∀ (b : Board) (d : Nat) (x : Bool) (ai pl : Mark),
      (minimax fuel b d x ai pl).2 = b := by
  induction fuel with
  | zero =>
    intro b d x ai pl
    rw [minimax]
    split
    · rfl
    · split <;> rfl
  | succ fuel' ih =>
    intro b d x ai pl
    rw [minimax]
    split
    · rfl
    split
    · rfl
    refine foldl_snd_eq _ b _ ?_ _
    intro s m hm
    have hmE := (mem_getAvailableMoves.mp hm).2.2
    dsimp only
    rw [ih, setCell_setCell _ hmE]

/-- Unfolding a non-terminal `minimax` node to a pure fold over the scores
of the child positions. -/
theorem minimax_succ {b : Board} (hW : checkWin b = false) (hD : isDraw b = false)
    (fuel d : Nat) (x : Bool) (ai pl : Mark) :
    minimax (fuel + 1) b d x ai pl =
      ((getAvailableMoves b).foldl
        (fun s m => combineScore x
          (minimax fuel (setCell b m.1 m.2 (if x then ai else pl)) (d + 1) (!x) ai pl).1 s)
        (if x then JsNum.negInf else JsNum.posInf), b) := by
  rw [minimax]
  rw [if_neg (by simp [hW]), if_neg (by simp [hD])]
  refine foldl_pair_split _ _ b _ ?_ _
  intro s m hm
  have hmE := (mem_getAvailableMoves.mp hm).2.2
  dsimp only
  rw [minimax_board, setCell_setCell _ hmE]

/-- `minimax_succ` specialized to a minimizing node. -/
theorem minimax_succ_min {b : Board} (hW : checkWin b = false) (hD : isDraw b = false)
    (fuel d : Nat) (ai pl : Mark) :
    minimax (fuel + 1) b d false ai pl =
      ((getAvailableMoves b).foldl
        (fun s m => combineScore false
          (minimax fuel (setCell b m.1 m.2 pl) (d + 1) true ai pl).1 s)
        JsNum.posInf, b) := by
  have h := minimax_succ hW hD fuel d false ai pl
  simpa using h

/-- `minimax_succ` specialized to a maximizing node. -/
theorem minimax_succ_max {b : Board} (hW : checkWin b = false) (hD : isDraw b = false)
    (fuel d : Nat) (ai pl : Mark) :
    minimax (fuel + 1) b d true ai pl =
      ((getAvailableMoves b).foldl
        (fun s m => combineScore true
          (minimax fuel (setCell b m.1 m.2 ai) (d + 1) false ai pl).1 s)
        JsNum.negInf, b) := by
  have h := minimax_succ hW hD fuel d true ai pl
  simpa using h

theorem getBestMove_eq (b : Board) (ai : Mark) :
    getBestMove b ai = ((bestFold (topScore b ai) (getAvailableMoves b)).1, b) := by
  have hstep : ∀ (s : (Int × Int) × JsNum) (m : Nat × Nat), m ∈ getAvailableMoves b →
      (fun (acc : ((Int × Int) × JsNum) × Board) (move : Nat × Nat) =>
        let b1 := setCell acc.2 move.1 move.2 ai
        let r := minimax (countEmpty b) b1 0 false ai (if ai = Mark.X then Mark.O else Mark.X)
        let b2 := setCell r.2 move.1 move.2 Mark.E
        if JsNum.lt acc.1.2 r.1 then ((((move.1 : Int), (move.2 : Int)), r.1), b2)
        else (acc.1, b2)) (s, b) m
      = ((fun (acc : (Int × Int) × JsNum) (m' : Nat × Nat) =>
          if JsNum.lt acc.2 (topScore b ai m')
          then (((m'.1 : Int), (m'.2 : Int)), topScore b ai m') else acc) s m, b) := by
    intro s m hm
    have hmE := (mem_getAvailableMoves.mp hm).2.2
    dsimp only
    rw [minimax_board, setCell_setCell _ hmE]
    have ht : (minimax (countEmpty b) (setCell b m.1 m.2 ai) 0 false ai
        (if ai = Mark.X then Mark.O else Mark.X)).1 = topScore b ai m := rfl
    rw [ht]
    split <;> rfl
  have hsplit := foldl_pair_split
    (fun (acc : ((Int × Int) × JsNum) × Board) (move : Nat × Nat) =>
      let b1 := setCell acc.2 move.1 move.2 ai
      let r := minimax (countEmpty b) b1 0 false ai (if ai = Mark.X then Mark.O else Mark.X)
      let b2 := setCell r.2 move.1 move.2 Mark.E
      if JsNum.lt acc.1.2 r.1 then ((((move.1 : Int), (move.2 : Int)), r.1), b2)
      else (acc.1, b2))
    (fun (acc : (Int × Int) × JsNum) (m' : Nat × Nat) =>
      if JsNum.lt acc.2 (topScore b ai m')
      then (((m'.1 : Int), (m'.2 : Int)), topScore b ai m') else acc)
    b (getAvailableMoves b) hstep
    ((((-1 : Int), (-1 : Int)), JsNum.negInf))
  exact congrArg (fun r => (r.1.1, r.2)) hsplit

theorem getBestMove_fst (b : Board) (ai : Mark) :
    (getBestMove b ai).1 = (bestFold (topScore b ai) (getAvailableMoves b)).1 := by
  rw [getBestMove_eq]

theorem getBestMove_snd (b : Board) (ai : Mark) : (getBestMove b ai).2 = b := by
  rw [getBestMove_eq]

theorem bestFold_go_spec (f : Nat × Nat → JsNum) :
    ∀ (moves : List (Nat × Nat)) (p : (Int × Int) × JsNum),
      (moves.foldl (fun acc m' => if JsNum.lt acc.2 (f m')
          then (((m'.1 : Int), (m'.2 : Int)), f m') else acc) p = p ∧
        ∀ m' ∈ moves, JsNum.lt p.2 (f m') = false) ∨
      (∃ pre m post, moves = pre ++ m :: post ∧
        moves.foldl (fun acc m' => if JsNum.lt acc.2 (f m')
          then (((m'.1 : Int), (m'.2 : Int)), f m') else acc) p =
            (((m.1 : Int), (m.2 : Int)), f m) ∧
        JsNum.lt p.2 (f m) = true ∧
        (∀ m' ∈ pre, JsNum.lt (f m') (f m) = true) ∧
        (∀ m' ∈ post, JsNum.lt (f m) (f m') = false)) := by
  intro moves
  induction moves with
  | nil => intro p; left; exact ⟨rfl, by simp⟩
  | cons m0 ms ih =>
    intro p
    rw [List.foldl_cons]
    by_cases h0 : JsNum.lt p.2 (f m0) = true
    · rw [if_pos h0]
      rcases ih (((m0.1 : Int), (m0.2 : Int)), f m0) with
        ⟨heq, hall⟩ | ⟨pre, m, post, hsplit, heq, hlt, hpre, hpost⟩
      · right
        exact ⟨[], m0, ms, by simp, heq, h0, by simp, hall⟩
      · right
        refine ⟨m0 :: pre, m, post, by rw [hsplit]; rfl, heq,
          JsNum.lt_trans h0 hlt, ?_, hpost⟩
        intro m' hm'
        rcases List.mem_cons.mp hm' with rfl | h
        · exact hlt
        · exact hpre m' h
    · have h0' : JsNum.lt p.2 (f m0) = false := by simpa using h0
      rw [if_neg h0]
      rcases ih p with ⟨heq, hall⟩ | ⟨pre, m, post, hsplit, heq, hlt, hpre, hpost⟩
      · left
        refine ⟨heq, ?_⟩
        intro m' hm'
        rcases List.mem_cons.mp hm' with rfl | h
        · exact h0'
        · exact hall m' h
      · right
        refine ⟨m0 :: pre, m, post, by rw [hsplit]; rfl, heq, hlt, ?_, hpost⟩
        intro m' hm'
        rcases List.mem_cons.mp hm' with rfl | h
        · exact JsNum.lt_of_not_lt_of_lt h0' hlt
        · exact hpre m' h

/-- What the `getBestMove` accumulator loop computes on a nonempty move
list whose scores are all finite: the chosen move is the unique first
element achieving the maximal score (strictly better than everything
before it, at least as good as everything after it). -/
theorem bestFold_spec (f : Nat × Nat → JsNum) (moves : List (Nat × Nat))
    (hne : moves ≠ []) (hfin : ∀ m' ∈ moves, f m' ≠ JsNum.negInf) :
    ∃ pre m post, moves = pre ++ m :: post ∧
      (bestFold f moves).1 = ((m.1 : Int), (m.2 : Int)) ∧
      (bestFold f moves).2 = f m ∧
      (∀ m' ∈ pre, JsNum.lt (f m') (f m) = true) ∧
      (∀ m' ∈ post, JsNum.lt (f m) (f m') = false) := by
  rcases bestFold_go_spec f moves (((-1 : Int), (-1 : Int)), JsNum.negInf) with
    ⟨_, hall⟩ | ⟨pre, m, post, hsplit, heq, _, hpre, hpost⟩
  · exfalso
    rcases moves with _ | ⟨m0, ms⟩
    · exact hne rfl
    · exact hfin m0 (List.mem_cons_self m0 ms)
        (JsNum.lt_negInf_eq_false_iff.mp (hall m0 (List.mem_cons_self m0 ms)))
  · refine ⟨pre, m, post, hsplit, ?_, ?_, hpre, hpost⟩
    · rw [bestFold, heq]
    · rw [bestFold, heq]

theorem bestFold_eq_specFirstBest (f : Nat × Nat → JsNum) (moves : List (Nat × Nat))
    (hne : moves ≠ []) (hfin : ∀ m' ∈ moves, f m' ≠ JsNum.negInf) :
    (specFirstBest f moves).map (fun m => ((m.1 : Int), (m.2 : Int)))
      = some (bestFold f moves).1 := by
  obtain ⟨pre, m, post, hsplit, hmove, _, hpre, hpost⟩ := bestFold_spec f moves hne hfin
  subst hsplit
  have hmem : m ∈ pre ++ m :: post :=
    List.mem_append_right _ (List.mem_cons_self m post)
  have hpredm : decide (∀ m' ∈ pre ++ m :: post, JsNum.lt (f m) (f m') = false) = true := by
    simp only [decide_eq_true_eq]
    intro m'' hm''
    rcases List.mem_append.mp hm'' with hL | hR
    · exact JsNum.lt_asymm (hpre m'' hL)
    · rcases List.mem_cons.mp hR with rfl | hpost'
      · exact JsNum.lt_irrefl _
      · exact hpost m'' hpost'
  have hpredpre : ∀ m' ∈ pre,
      decide (∀ m3 ∈ pre ++ m :: post, JsNum.lt (f m') (f m3) = false) = false := by
    intro m' hm'
    simp only [decide_eq_false_iff_not, not_forall]
    push_neg
    exact ⟨m, hmem, by simp [hpre m' hm']⟩
  unfold specFirstBest
  rw [List.filter_append, List.filter_eq_nil_iff.mpr ?hpre, List.filter_cons_of_pos ?hm]
  case hpre =>
    intro m' hm'
    simp only [Bool.not_eq_true]
    exact hpredpre m' hm'
  case hm => exact hpredm
  simp [hmove]

/-- Terminal scoring: a position with a completed line scores `-10 + depth`
for the maximizing side and `10 - depth` for the minimizing side, at every
fuel. -/
theorem minimax_win {b : Board} (hW : checkWin b = true) (fuel d : Nat) (x : Bool)
    (ai pl : Mark) :
    minimax fuel b d x ai pl =
      ((if x then JsNum.fin (-10 + (d : Int)) else JsNum.fin (10 - (d : Int))), b) := by
  cases fuel <;> · rw [minimax]; simp [hW]

/-- Terminal scoring: a full position with no completed line scores `0`. -/
theorem minimax_draw {b : Board} (hW : checkWin b = false) (hD : isDraw b = true)
    (fuel d : Nat) (x : Bool) (ai pl : Mark) :
    minimax fuel b d x ai pl = (JsNum.fin 0, b) := by
  cases fuel <;> · rw [minimax]; simp [hW, hD]

theorem minimax_zero {b : Board} (hW : checkWin b = false) (hD : isDraw b = false)
    (d : Nat) (x : Bool) (ai pl : Mark) :
    minimax 0 b d x ai pl = (JsNum.fin 0, b) := by
  rw [minimax]; simp [hW, hD]

theorem combineScore_fin (x : Bool) (a : Int) {s : JsNum} (h : ∃ n, s = JsNum.fin n) :
    ∃ n, combineScore x (JsNum.fin a) s = JsNum.fin n := by
  obtain ⟨n, rfl⟩ := h
  cases x
  · by_cases hlt : JsNum.lt (JsNum.fin n) (JsNum.fin a) = true
    · exact ⟨n, by simp [combineScore, JsNum.min, hlt]⟩
    · exact ⟨a, by simp [combineScore, JsNum.min, hlt]⟩
  · by_cases hlt : JsNum.lt (JsNum.fin a) (JsNum.fin n) = true
    · exact ⟨n, by simp [combineScore, JsNum.max, hlt]⟩
    · exact ⟨a, by simp [combineScore, JsNum.max, hlt]⟩

theorem combineScore_init_fin (x : Bool) (a : Int) :
    ∃ n, combineScore x (JsNum.fin a)
      (if x then JsNum.negInf else JsNum.posInf) = JsNum.fin n := by
  cases x <;> exact ⟨a, rfl⟩

theorem foldl_combine_fin_acc (x : Bool) (g : Nat × Nat → JsNum) :
    ∀ (moves : List (Nat × Nat)) (s : JsNum), (∃ n, s = JsNum.fin n) →
      (∀ m ∈ moves, ∃ n, g m = JsNum.fin n) →
      ∃ n, moves.foldl (fun acc m => combineScore x (g m) acc) s = JsNum.fin n := by
  intro moves
  induction moves with
  | nil => intro s hs _; simpa using hs
  | cons m ms ih =>
    intro s hs hall
    rw [List.foldl_cons]
    obtain ⟨a, ha⟩ := hall m (List.mem_cons_self m ms)
    rw [ha]
    exact ih _ (combineScore_fin x a hs) (fun m' hm' => hall m' (List.mem_cons_of_mem _ hm'))

theorem foldl_combine_fin (x : Bool) (g : Nat × Nat → JsNum) (moves : List (Nat × Nat))
    (hne : moves ≠ []) (hall : ∀ m ∈ moves, ∃ n, g m = JsNum.fin n) :
    ∃ n, moves.foldl (fun acc m => combineScore x (g m) acc)
      (if x then JsNum.negInf else JsNum.posInf) = JsNum.fin n := by
  rcases moves with _ | ⟨m, ms⟩
  · exact absurd rfl hne
  rw [List.foldl_cons]
  obtain ⟨a, ha⟩ := hall m (List.mem_cons_self m ms)
  rw [ha]
  exact foldl_combine_fin_acc x g ms _ (combineScore_init_fin x a)
    (fun m' hm' => hall m' (List.mem_cons_of_mem _ hm'))

/-- On a well-formed board, with real symbols and sufficient fuel, `minimax`
never returns an infinity. -/
theorem minimax_fin : ∀ (fuel : Nat) (b : Board) (d : Nat) (x : Bool) (ai pl : Mark),
    WF b → countEmpty b ≤ fuel → ai ≠ Mark.E → pl ≠ Mark.E →
    ∃ n, (minimax fuel b d x ai pl).1 = JsNum.fin n := by
  intro fuel
  induction fuel with
  | zero =>
    intro b d x ai pl _ _ _ _
    by_cases hW : checkWin b = true
    · rw [minimax_win hW]; cases x <;> exact ⟨_, rfl⟩
    · have hWf : checkWin b = false := by simpa using hW
      by_cases hD : isDraw b = true
      · rw [minimax_draw hWf hD]; exact ⟨_, rfl⟩
      · rw [minimax_zero hWf (by simpa using hD)]; exact ⟨_, rfl⟩
  | succ fuel' ih =>
    intro b d x ai pl hWF hfuel hai hpl
    by_cases hW : checkWin b = true
    · rw [minimax_win hW]; cases x <;> exact ⟨_, rfl⟩
    · have hWf : checkWin b = false := by simpa using hW
      by_cases hD : isDraw b = true
      · rw [minimax_draw hWf hD]; exact ⟨_, rfl⟩
      · have hDf : isDraw b = false := by simpa using hD
        rw [minimax_succ hWf hDf fuel' d x ai pl]
        refine foldl_combine_fin x _ _ (moves_ne_nil hWF hDf) ?_
        intro m hm
        obtain ⟨hr, hc, hE⟩ := mem_getAvailableMoves.mp hm
        have hsym : (if x then ai else pl) ≠ Mark.E := by
          cases x <;> simpa
        have hcnt := countEmpty_setCell hWF hr hc hE hsym
        exact ih _ (d + 1) (!x) ai pl (WF_setCell hWF _ _ _) (by omega) hai hpl

/-- Fuel-indifference: any fuel at least the number of empty cells gives the
same `minimax` result (so the source's unbounded recursion is total and the
fuel is a faithful model of it). -/
theorem minimax_fuel_indep : ∀ (n : Nat) (b : Board) (d : Nat) (x : Bool) (ai pl : Mark)
    (f1 f2 : Nat), countEmpty b = n → WF b → ai ≠ Mark.E → pl ≠ Mark.E →
    countEmpty b ≤ f1 → countEmpty b ≤ f2 →
    minimax f1 b d x ai pl = minimax f2 b d x ai pl := by
  intro n
  induction n using Nat.strong_induction_on with
  | _ n ih =>
    intro b d x ai pl f1 f2 hn hWF hai hpl h1 h2
    by_cases hW : checkWin b = true
    · rw [minimax_win hW, minimax_win hW]
    · have hWf : checkWin b = false := by simpa using hW
      by_cases hD : isDraw b = true
      · rw [minimax_draw hWf hD, minimax_draw hWf hD]
      · have hDf : isDraw b = false := by simpa using hD
        have hcnt : countEmpty b ≠ 0 := fun h => by
          simp [isDraw_iff_countEmpty.mpr h] at hDf
        rcases f1 with _ | a1
        · omega
        rcases f2 with _ | a2
        · omega
        rw [minimax_succ hWf hDf a1 d x ai pl, minimax_succ hWf hDf a2 d x ai pl]
        refine congrArg (fun s => (s, b)) ?_
        refine List.foldl_ext _ _ _ ?_
        intro s m hm
        obtain ⟨hr, hc, hE⟩ := mem_getAvailableMoves.mp hm
        have hsym : (if x then ai else pl) ≠ Mark.E := by
          cases x <;> simpa
        have hcnt2 := countEmpty_setCell hWF hr hc hE hsym
        have hrec := ih (n - 1) (by omega) (setCell b m.1 m.2 (if x then ai else pl))
          (d + 1) (!x) ai pl a1 a2 (by omega) (WF_setCell hWF _ _ _) hai hpl
          (by omega) (by omega)
        rw [hrec]

theorem combineScore_eq_or (x : Bool) (a s : JsNum) :
    combineScore x a s = a ∨ combineScore x a s = s := by
  cases x
  · by_cases h : JsNum.lt s a = true
    · exact Or.inr (by simp [combineScore, JsNum.min, h])
    · exact Or.inl (by simp [combineScore, JsNum.min, h])
  · by_cases h : JsNum.lt a s = true
    · exact Or.inr (by simp [combineScore, JsNum.max, h])
    · exact Or.inl (by simp [combineScore, JsNum.max, h])

theorem JsNum.min_not_lt_left (a b : JsNum) : JsNum.lt a (JsNum.min a b) = false := by
  unfold JsNum.min
  split
  · exact JsNum.lt_asymm (by assumption)
  · exact JsNum.lt_irrefl a

theorem JsNum.min_not_lt_right (a b : JsNum) : JsNum.lt b (JsNum.min a b) = false := by
  unfold JsNum.min
  split
  · exact JsNum.lt_irrefl b
  · exact Bool.eq_false_iff.mpr (by assumption)

theorem JsNum.max_not_lt_left (a b : JsNum) : JsNum.lt (JsNum.max a b) a = false := by
  unfold JsNum.max
  split
  · exact JsNum.lt_asymm (by assumption)
  · exact JsNum.lt_irrefl a

theorem JsNum.max_not_lt_right (a b : JsNum) : JsNum.lt (JsNum.max a b) b = false := by
  unfold JsNum.max
  split
  · exact JsNum.lt_irrefl b
  · exact Bool.eq_false_iff.mpr (by assumption)

/-- A fold of `combineScore` stays below any bound that dominates the
initial accumulator and every folded score. -/
theorem foldl_bound_above (x : Bool) (g : Nat × Nat → JsNum) (B : JsNum) :
    ∀ (moves : List (Nat × Nat)) (init : JsNum),
      (∀ m ∈ moves, JsNum.lt B (g m) = false) → JsNum.lt B init = false →
      JsNum.lt B (moves.foldl (fun s m => combineScore x (g m) s) init) = false := by
  intro moves
  induction moves with
  | nil => intro init _ h; simpa using h
  | cons m ms ih =>
    intro init hall hinit
    rw [List.foldl_cons]
    refine ih _ (fun m' hm' => hall m' (List.mem_cons_of_mem _ hm')) ?_
    rcases combineScore_eq_or x (g m) init with h | h <;> rw [h]
    · exact hall m (List.mem_cons_self m ms)
    · exact hinit

/-- A fold of `combineScore` stays above any bound dominated by the initial
accumulator and by every folded score. -/
theorem foldl_bound_below (x : Bool) (g : Nat × Nat → JsNum) (B : JsNum) :
    ∀ (moves : List (Nat × Nat)) (init : JsNum),
      (∀ m ∈ moves, JsNum.lt (g m) B = false) → JsNum.lt init B = false →
      JsNum.lt (moves.foldl (fun s m => combineScore x (g m) s) init) B = false := by
  intro moves
  induction moves with
  | nil => intro init _ h; simpa using h
  | cons m ms ih =>
    intro init hall hinit
    rw [List.foldl_cons]
    refine ih _ (fun m' hm' => hall m' (List.mem_cons_of_mem _ hm')) ?_
    rcases combineScore_eq_or x (g m) init with h | h <;> rw [h]
    · exact hall m (List.mem_cons_self m ms)
    · exact hinit

theorem foldl_min_le_init (g : Nat × Nat → JsNum) :
    ∀ (moves : List (Nat × Nat)) (init : JsNum),
      JsNum.lt init (moves.foldl (fun s m => combineScore false (g m) s) init) = false := by
  intro moves
  induction moves with
  | nil => intro init; exact JsNum.lt_irrefl init
  | cons m ms ih =>
    intro init
    rw [List.foldl_cons]
    exact JsNum.not_lt_trans (JsNum.min_not_lt_right (g m) init)
      (ih (combineScore false (g m) init))

/-- A minimizing fold ends at or below the score of each folded move. -/
theorem foldl_min_le_elem (g : Nat × Nat → JsNum) {moves : List (Nat × Nat)}
    (init : JsNum) {m0 : Nat × Nat} (hm : m0 ∈ moves) :
    JsNum.lt (g m0) (moves.foldl (fun s m => combineScore false (g m) s) init) = false := by
  obtain ⟨l1, l2, rfl⟩ := List.append_of_mem hm
  rw [List.foldl_append, List.foldl_cons]
  exact JsNum.not_lt_trans (JsNum.min_not_lt_left (g m0) _) (foldl_min_le_init g l2 _)

theorem foldl_max_ge_init (g : Nat × Nat → JsNum) :
    ∀ (moves : List (Nat × Nat)) (init : JsNum),
      JsNum.lt (moves.foldl (fun s m => combineScore true (g m) s) init) init = false := by
  intro moves
  induction moves with
  | nil => intro init; exact JsNum.lt_irrefl init
  | cons m ms ih =>
    intro init
    rw [List.foldl_cons]
    exact JsNum.not_lt_trans (ih (combineScore true (g m) init))
      (JsNum.max_not_lt_right (g m) init)

/-- A maximizing fold ends at or above the score of each folded move. -/
theorem foldl_max_ge_elem (g : Nat × Nat → JsNum) {moves : List (Nat × Nat)}
    (init : JsNum) {m0 : Nat × Nat} (hm : m0 ∈ moves) :
    JsNum.lt (moves.foldl (fun s m => combineScore true (g m) s) init) (g m0) = false := by
  obtain ⟨l1, l2, rfl⟩ := List.append_of_mem hm
  rw [List.foldl_append, List.foldl_cons]
  exact JsNum.not_lt_trans (foldl_max_ge_init g l2 _) (JsNum.max_not_lt_left (g m0) _)

theorem zip_mem_of_mem_left {α β : Type} {l1 : List α} {l2 : List β}
    (hlen : l1.length = l2.length) {a : α} (ha : a ∈ l1) :
    ∃ c, (a, c) ∈ l1.zip l2 := by
  obtain ⟨i, hi, rfl⟩ := List.mem_iff_getElem.mp ha
  have hi2 : i < l2.length := by omega
  have hiz : i < (l1.zip l2).length := by
    rw [List.length_zip]
    omega
  exact ⟨l2[i], List.mem_iff_getElem.mpr ⟨i, hiz, List.getElem_zip⟩⟩

/-- Soundness of `checkLE`: an accepted certificate really bounds the
`minimax` value by `0` from above. -/
theorem checkLE_sound : ∀ (fuel : Nat) (b : Board) (depth : Nat) (x : Bool)
    (ai pl : Mark) (cert : Cert),
    checkLE fuel b depth x ai pl cert = true →
    JsNum.lt (JsNum.fin 0) (minimax fuel b depth x ai pl).1 = false := by
  intro fuel
  induction fuel with
  | zero =>
    intro b depth x ai pl cert hc
    by_cases hW : checkWin b = true
    · rw [minimax_win hW]
      unfold checkLE at hc
      rw [if_pos hW] at hc
      cases x
      · simpa using hc
      · simpa using hc
    · have hWf : checkWin b = false := by simpa using hW
      by_cases hD : isDraw b = true
      · rw [minimax_draw hWf hD]; rfl
      · rw [minimax_zero hWf (by simpa using hD)]; rfl
  | succ fuel' ih =>
    intro b depth x ai pl cert hc
    by_cases hW : checkWin b = true
    · rw [minimax_win hW]
      unfold checkLE at hc
      rw [if_pos hW] at hc
      cases x
      · simpa using hc
      · simpa using hc
    · have hWf : checkWin b = false := by simpa using hW
      by_cases hD : isDraw b = true
      · rw [minimax_draw hWf hD]; rfl
      · have hDf : isDraw b = false := by simpa using hD
        unfold checkLE at hc
        rw [if_neg (by simp [hWf]), if_neg (by simp [hDf])] at hc
        cases x
        · rw [minimax_succ_min hWf hDf]
          dsimp only
          rcases cert with _ | ⟨r, c, cert'⟩ | cs
          · simp at hc
          · simp at hc
            obtain ⟨hmem, hchild⟩ := hc
            exact JsNum.not_lt_trans (ih _ _ _ _ _ _ hchild)
              (foldl_min_le_elem
                (fun m => (minimax fuel' (setCell b m.1 m.2 pl) (depth + 1) true ai pl).1)
                JsNum.posInf hmem)
          · simp at hc
        · rw [minimax_succ_max hWf hDf]
          dsimp only
          rcases cert with _ | ⟨r, c, cert'⟩ | cs
          · simp at hc
          · simp at hc
          · simp at hc
            obtain ⟨hlen, hall⟩ := hc
            refine foldl_bound_above true _ (JsNum.fin 0) _ _ ?_ rfl
            intro m hm
            obtain ⟨cc, hz⟩ := zip_mem_of_mem_left hlen hm
            exact ih _ _ _ _ _ _ (hall m.1 m.2 cc hz)

/-- Soundness of `checkGE`: an accepted certificate really bounds the
`minimax` value by `0` from below. -/
theorem checkGE_sound : ∀ (fuel : Nat) (b : Board) (depth : Nat) (x : Bool)
    (ai pl : Mark) (cert : Cert),
    checkGE fuel b depth x ai pl cert = true →
    JsNum.lt (minimax fuel b depth x ai pl).1 (JsNum.fin 0) = false := by
  intro fuel
  induction fuel with
  | zero =>
    intro b depth x ai pl cert hc
    by_cases hW : checkWin b = true
    · rw [minimax_win hW]
      unfold checkGE at hc
      rw [if_pos hW] at hc
      cases x
      · simpa using hc
      · simpa using hc
    · have hWf : checkWin b = false := by simpa using hW
      by_cases hD : isDraw b = true
      · rw [minimax_draw hWf hD]; rfl
      · rw [minimax_zero hWf (by simpa using hD)]; rfl
  | succ fuel' ih =>
    intro b depth x ai pl cert hc
    by_cases hW : checkWin b = true
    · rw [minimax_win hW]
      unfold checkGE at hc
      rw [if_pos hW] at hc
      cases x
      · simpa using hc
      · simpa using hc
    · have hWf : checkWin b = false := by simpa using hW
      by_cases hD : isDraw b = true
      · rw [minimax_draw hWf hD]; rfl
      · have hDf : isDraw b = false := by simpa using hD
        unfold checkGE at hc
        rw [if_neg (by simp [hWf]), if_neg (by simp [hDf])] at hc
        cases x
        · rw [minimax_succ_min hWf hDf]
          dsimp only
          rcases cert with _ | ⟨r, c, cert'⟩ | cs
          · simp at hc
          · simp at hc
          · simp at hc
            obtain ⟨hlen, hall⟩ := hc
            refine foldl_bound_below false _ (JsNum.fin 0) _ _ ?_ rfl
            intro m hm
            obtain ⟨cc, hz⟩ := zip_mem_of_mem_left hlen hm
            exact ih _ _ _ _ _ _ (hall m.1 m.2 cc hz)
        · rw [minimax_succ_max hWf hDf]
          dsimp only
          rcases cert with _ | ⟨r, c, cert'⟩ | cs
          · simp at hc
          · simp at hc
            obtain ⟨hmem, hchild⟩ := hc
            exact JsNum.not_lt_trans
              (foldl_max_ge_elem
                (fun m => (minimax fuel' (setCell b m.1 m.2 ai) (depth + 1) false ai pl).1)
                JsNum.negInf hmem)
              (ih _ _ _ _ _ _ hchild)
          · simp at hc

theorem topScore_fin {b : Board} (hWF : WF b) {ai : Mark} (hai : ai ≠ Mark.E) :
    ∀ m ∈ getAvailableMoves b, topScore b ai m ≠ JsNum.negInf := by
  intro m hm
  obtain ⟨hr, hc, hE⟩ := mem_getAvailableMoves.mp hm
  have hcnt := countEmpty_setCell hWF hr hc hE hai
  have hpl : (if ai = Mark.X then Mark.O else Mark.X) ≠ Mark.E := by
    by_cases h : ai = Mark.X
    · simp [h]
    · simp [h]
  obtain ⟨n, hn⟩ := minimax_fin (countEmpty b) (setCell b m.1 m.2 ai) 0 false ai
    (if ai = Mark.X then Mark.O else Mark.X) (WF_setCell hWF _ _ _) (by omega) hai hpl
  unfold topScore
  rw [hn]
  simp

/-- The C5 tie-break refinement, in general form: on a non-full well-formed
board, `getBestMove` returns exactly the move the spec describes — the
first, in row-major enumeration order, among all legal moves achieving the
maximum top-level score. -/
theorem getBestMove_spec_general (b : Board) (ai : Mark) (hWF : WF b)
    (hai : ai ≠ Mark.E) (hD : isDraw b = false) :
    (specFirstBest (topScore b ai) (getAvailableMoves b)).map
      (fun m => ((m.1 : Int), (m.2 : Int))) = some (getBestMove b ai).1 := by
  rw [getBestMove_fst]
  exact bestFold_eq_specFirstBest _ _ (moves_ne_nil hWF hD) (topScore_fin hWF hai)

theorem topScore_empty_eq (r c : Nat) :
    topScore emptyGrid Mark.X (r, c)
      = (minimax 9 (setCell emptyGrid r c Mark.X) 0 false Mark.X Mark.O).1 := by
  unfold topScore
  dsimp only
  rw [show (if Mark.X = Mark.X then Mark.O else Mark.X) = Mark.O from rfl]
  rw [show countEmpty emptyGrid = 9 from by decide]

/-- On the empty board with mover X, `getBestMove` returns (0,0): the game
is drawn from every opening, so all scores tie and the row-major-first cell
wins the tie-break. -/
theorem getBestMove_empty : (getBestMove emptyGrid Mark.X).1 = ((0 : Int), (0 : Int)) := by
  have hmv : getAvailableMoves emptyGrid =
      [(0, 0), (0, 1), (0, 2), (1, 0), (1, 1), (1, 2), (2, 0), (2, 1), (2, 2)] := by decide
  have hge : JsNum.lt (topScore emptyGrid Mark.X (0, 0)) (JsNum.fin 0) = false := by
    rw [topScore_empty_eq]
    exact checkGE_sound 9 _ 0 false Mark.X Mark.O certGE00 (by decide)
  have hle : ∀ m ∈ getAvailableMoves emptyGrid,
      JsNum.lt (topScore emptyGrid Mark.X (0, 0)) (topScore emptyGrid Mark.X m) = false := by
    intro m hm
    rw [hmv] at hm
    fin_cases hm
    · exact JsNum.lt_irrefl _
    · exact JsNum.not_lt_trans hge (by
        rw [topScore_empty_eq]
        exact checkLE_sound 9 _ 0 false Mark.X Mark.O certLE01 (by decide))
    · exact JsNum.not_lt_trans hge (by
        rw [topScore_empty_eq]
        exact checkLE_sound 9 _ 0 false Mark.X Mark.O certLE02 (by decide))
    · exact JsNum.not_lt_trans hge (by
        rw [topScore_empty_eq]
        exact checkLE_sound 9 _ 0 false Mark.X Mark.O certLE10 (by decide))
    · exact JsNum.not_lt_trans hge (by
        rw [topScore_empty_eq]
        exact checkLE_sound 9 _ 0 false Mark.X Mark.O certLE11 (by decide))
    · exact JsNum.not_lt_trans hge (by
        rw [topScore_empty_eq]
        exact checkLE_sound 9 _ 0 false Mark.X Mark.O certLE12 (by decide))
    · exact JsNum.not_lt_trans hge (by
        rw [topScore_empty_eq]
        exact checkLE_sound 9 _ 0 false Mark.X Mark.O certLE20 (by decide))
    · exact JsNum.not_lt_trans hge (by
        rw [topScore_empty_eq]
        exact checkLE_sound 9 _ 0 false Mark.X Mark.O certLE21 (by decide))
    · exact JsNum.not_lt_trans hge (by
        rw [topScore_empty_eq]
        exact checkLE_sound 9 _ 0 false Mark.X Mark.O certLE22 (by decide))
  have hsfb : specFirstBest (topScore emptyGrid Mark.X) (getAvailableMoves emptyGrid)
      = some (0, 0) := by
    unfold specFirstBest
    rw [hmv]
    rw [List.filter_cons_of_pos ?pos]
    case pos =>
      refine decide_eq_true ?_
      intro m' hm'
      exact hle m' (by rw [hmv]; exact hm')
    rfl
  have hchar := getBestMove_spec_general emptyGrid Mark.X (by decide) (by decide) (by decide)
  rw [hsfb] at hchar
  exact (Option.some.inj hchar).symm

/-- C1 counterexample: on Scenario A's board, `getBestMove` does not return
(2,2): the anti-diagonal completion (2,0) is also an immediate win and comes
first in row-major order. -/
theorem spec_C1_counterexample :
    (getBestMove scenarioA Mark.X).1 = ((2 : Int), (0 : Int)) ∧
    (getBestMove scenarioA Mark.X).1 ≠ ((2 : Int), (2 : Int)) := by
  decide

/-- C1 (amended): on Scenario A's board with mover X, `getBestMove` returns
(2,0) — the row-major-first of the two immediate winning moves — and both
winning moves (2,0) and (2,2) carry top-level score 10 (win at depth 0). -/
theorem spec_C1 :
    (getBestMove scenarioA Mark.X).1 = ((2 : Int), (0 : Int)) ∧
    topScore scenarioA Mark.X (2, 0) = JsNum.fin 10 ∧
    topScore scenarioA Mark.X (2, 2) = JsNum.fin 10 := by
  decide

/-- C3 counterexample: `isDraw` ignores winners — on a full board whose top
row is a completed `X` line, `isDraw` still returns `true`. -/
theorem spec_C3_counterexample : isDraw winFull = true ∧ checkWin winFull = true := by
  decide

/-- C3 (amended): on a well-formed grid, `isDraw` returns `true` exactly
when every cell of the 3x3 grid is non-empty; it does not consult the
winner (callers get Win-before-Draw by testing `checkWin` first). -/
theorem spec_C3 (b : Board) (hWF : WF b) :
    isDraw b = true ↔ ∀ r : Nat, r < 3 → ∀ c : Nat, c < 3 → getCell b r c ≠ Mark.E := by
  rw [isDraw_iff_countEmpty]
  constructor
  · intro h r hr c hc hE
    have hne := moves_ne_nil hWF (b := b)
    have : (r, c) ∈ getAvailableMoves b := (@mem_getAvailableMoves b (r, c)).mpr ⟨hr, hc, hE⟩
    -- a genuinely empty cell contradicts countEmpty = 0
    have hr' : r < b.length := hWF.1 ▸ hr
    have hrowlen : (b.getD r []).length = 3 := by
      rw [List.getD_eq_getElem _ _ hr']
      exact hWF.2 _ (List.getElem_mem hr')
    have hcr : Mark.E ∈ b.getD r [] := by
      have := List.getD_eq_getElem (b.getD r []) Mark.E (hrowlen ▸ hc)
      unfold getCell at hE
      rw [hE] at this
      exact this ▸ List.getElem_mem _
    have hcount : 0 < (b.getD r []).count Mark.E := List.count_pos_iff.mpr hcr
    have hmem : b.getD r [] ∈ b := by
      rw [List.getD_eq_getElem _ _ hr']
      exact List.getElem_mem hr'
    have : (b.getD r []).count Mark.E ∈ b.map fun row => row.count Mark.E :=
      List.mem_map.mpr ⟨_, hmem, rfl⟩
    have := List.single_le_sum (by intro x _; exact Nat.zero_le x) _ this
    unfold countEmpty at h
    omega
  · intro h
    by_contra hne
    obtain ⟨row, hrow, hcell⟩ : ∃ row ∈ b, Mark.E ∈ row := by
      by_contra hall
      push_neg at hall
      apply hne
      simp only [countEmpty, List.sum_eq_zero_iff, List.mem_map]
      rintro x ⟨row, hrow, rfl⟩
      rw [List.count_eq_zero]
      exact hall row hrow
    obtain ⟨r, hr, rfl⟩ := List.mem_iff_getElem.mp hrow
    obtain ⟨c, hc, hEc⟩ := List.mem_iff_getElem.mp hcell
    have hr3 : r < 3 := hWF.1 ▸ hr
    have hc3 : c < 3 := (hWF.2 _ (List.getElem_mem hr)) ▸ hc
    refine h r hr3 c hc3 ?_
    unfold getCell
    rw [List.getD_eq_getElem _ _ hr, List.getD_eq_getElem _ _ hc]
    exact hEc

theorem spec_C3_witness : isDraw drawB = true :=
  (spec_C3 drawB (by decide)).mpr (by decide)

/-- C4 counterexample: `makeMove` performs no range validation.  With row 3
the guard's read `grid[3][0]` indexes `undefined` and throws (modelled
`none`) instead of rejecting; with column 5 the read is `undefined` (falsy,
treated like an empty cell), so the move goes through and the state mutates
(the current player switches from X to O). -/
theorem spec_C4_counterexample :
    makeMove multiState 3 0 = none ∧
    (makeMove multiState 0 5).map (fun st => st.currentPlayer) = some Mark.O ∧
    multiState.currentPlayer = Mark.X := by
  decide

/-- C4 (amended): when the target row exists and either the target cell
holds a non-empty mark or the status is not `'Playing'`, `makeMove` is a
rejected no-op: it returns the state byte-for-byte unchanged, writing
nothing.  (Out-of-range coordinates are not validated; see the
counterexample.) -/
theorem spec_C4 (st : GameState) (r c : Nat) (row : List Mark)
    (hrow : st.grid[r]? = some row)
    (hrej : (∃ m, row[c]? = some m ∧ m ≠ Mark.E) ∨ st.gameStatus ≠ Status.playing) :
    makeMove st r c = some st := by
  unfold makeMove
  rw [hrow]
  have hguard : ((match row[c]? with
      | none => true
      | some m => m == Mark.E) && st.gameStatus == Status.playing) = false := by
    rcases hrej with ⟨m, hm, hne⟩ | hstat
    · rw [hm]
      simp [hne]
    · simp [hstat]
  simp only [hguard, Bool.false_eq_true, if_false]

theorem spec_C4_witness : makeMove occupiedState 1 1 = some occupiedState :=
  spec_C4 occupiedState 1 1 [Mark.E, Mark.X, Mark.E] rfl
    (Or.inl ⟨Mark.X, rfl, by decide⟩)

/-- C6: terminal scoring and the depth preference.  A won position scores
`-10 + d` for the maximizing side and `10 - d` for the minimizing side; a
drawn position scores `0`; consequently a win found at a smaller depth
scores strictly higher, and a loss at a larger depth scores strictly higher
(less negative). -/
theorem spec_C6 (fuel fuel' f0 d d' d0 : Nat) (b b' b0 : Board) (x : Bool)
    (ai pl : Mark) (hW : checkWin b = true) (hW' : checkWin b' = true)
    (hd : d < d') (hW0 : checkWin b0 = false) (hD0 : isDraw b0 = true) :
    (minimax fuel b d true ai pl).1 = JsNum.fin (-10 + (d : Int)) ∧
    (minimax fuel b d false ai pl).1 = JsNum.fin (10 - (d : Int)) ∧
    (minimax f0 b0 d0 x ai pl).1 = JsNum.fin 0 ∧
    JsNum.lt (minimax fuel' b' d' false ai pl).1 (minimax fuel b d false ai pl).1 = true ∧
    JsNum.lt (minimax fuel b d true ai pl).1 (minimax fuel' b' d' true ai pl).1 = true := by
  refine ⟨by rw [minimax_win hW]; rfl, by rw [minimax_win hW]; rfl,
    by rw [minimax_draw hW0 hD0], ?_, ?_⟩
  · rw [minimax_win hW' fuel' d' false ai pl, minimax_win hW fuel d false ai pl]
    show JsNum.lt (JsNum.fin (10 - (d' : Int))) (JsNum.fin (10 - (d : Int))) = true
    rw [JsNum.lt_fin_fin, decide_eq_true_eq]
    omega
  · rw [minimax_win hW fuel d true ai pl, minimax_win hW' fuel' d' true ai pl]
    show JsNum.lt (JsNum.fin (-10 + (d : Int))) (JsNum.fin (-10 + (d' : Int))) = true
    rw [JsNum.lt_fin_fin, decide_eq_true_eq]
    omega

theorem spec_C6_witness :
    (minimax 9 winFull 0 true Mark.X Mark.O).1 = JsNum.fin (-10) ∧
    (minimax 9 winFull 0 false Mark.X Mark.O).1 = JsNum.fin 10 ∧
    (minimax 9 drawB 5 false Mark.X Mark.O).1 = JsNum.fin 0 ∧
    JsNum.lt (minimax 9 winFull 1 false Mark.X Mark.O).1
      (minimax 9 winFull 0 false Mark.X Mark.O).1 = true ∧
    JsNum.lt (minimax 9 winFull 0 true Mark.X Mark.O).1
      (minimax 9 winFull 1 true Mark.X Mark.O).1 = true := by
  have h := spec_C6 9 9 9 0 1 5 winFull winFull drawB false Mark.X Mark.O
    (by decide) (by decide) (by decide) (by decide) (by decide)
  simpa using h

/-- C8: `getBestMove` is deterministic — the result (move and threaded
board alike) is a function of the board contents and the mover symbol
alone; equal inputs give the identical output. -/
theorem spec_C8 (b1 b2 : Board) (ai1 ai2 : Mark) (hb : b1 = b2) (hai : ai1 = ai2) :
    getBestMove b1 ai1 = getBestMove b2 ai2 := by
  subst hb; subst hai; rfl

theorem spec_C8_witness : getBestMove scenarioA Mark.X = getBestMove scenarioA Mark.X :=
  spec_C8 scenarioA scenarioA Mark.X Mark.X rfl rfl

/-- C9: the search never mutates its input.  Both `getBestMove` and every
`minimax` call hand back the board exactly as received: every mark placed
during exploration is undone before the loop iteration ends. -/
theorem spec_C9 (b : Board) (ai : Mark) :
    (getBestMove b ai).2 = b ∧
    ∀ (fuel d : Nat) (x : Bool) (pl : Mark), (minimax fuel b d x ai pl).2 = b := by
  constructor
  · rw [getBestMove_eq]
  · intro fuel d x pl
    exact minimax_board fuel b d x ai pl

theorem getBestMove_nil {b : Board} (hmoves : getAvailableMoves b = []) (ai : Mark) :
    getBestMove b ai = (((-1 : Int), (-1 : Int)), b) := by
  rw [getBestMove_eq, hmoves]
  rfl

/-- C10: on a board with no empty cell, `getBestMove` does not fail — it
returns the sentinel (-1,-1), outside the valid range — and `aiMove`, using
that sentinel as a grid index, indexes `undefined` and throws (modelled
`none`). -/
theorem spec_C10 (b : Board) (ai : Mark) (st : GameState)
    (hmoves : getAvailableMoves b = []) (hst : st.grid = b) :
    (getBestMove b ai).1 = ((-1 : Int), (-1 : Int)) ∧ aiMove st = none := by
  constructor
  · rw [getBestMove_nil hmoves]
  · unfold aiMove
    rw [hst]
    dsimp only
    rw [getBestMove_nil hmoves]
    rfl

theorem spec_C10_witness :
    (getBestMove drawB Mark.X).1 = ((-1 : Int), (-1 : Int)) ∧ aiMove drawState = none :=
  spec_C10 drawB Mark.X drawState (by decide) rfl

/-- C7: termination of the search.  Placing a mark on any available cell
decreases the number of empty cells by exactly one; consequently `minimax`
is insensitive to any fuel of at least the empty-cell count (the recursion
bottoms out within that many plies), and a well-formed board has at most 9
empty cells, so the recursion depth is at most 9. -/
theorem spec_C7 (b b2 b3 : Board) (r c : Nat) (sym ai pl : Mark) (d : Nat) (x : Bool)
    (f1 f2 : Nat)
    (hWF : WF b) (hm : (r, c) ∈ getAvailableMoves b) (hsym : sym ≠ Mark.E)
    (hWF2 : WF b2) (hai : ai ≠ Mark.E) (hpl : pl ≠ Mark.E)
    (h1 : countEmpty b2 ≤ f1) (h2 : countEmpty b2 ≤ f2) (hWF3 : WF b3) :
    countEmpty (setCell b r c sym) + 1 = countEmpty b ∧
    minimax f1 b2 d x ai pl = minimax f2 b2 d x ai pl ∧
    countEmpty b3 ≤ 9 := by
  obtain ⟨hr, hc, hE⟩ := mem_getAvailableMoves.mp hm
  exact ⟨countEmpty_setCell hWF hr hc hE hsym,
    minimax_fuel_indep (countEmpty b2) b2 d x ai pl f1 f2 rfl hWF2 hai hpl h1 h2,
    countEmpty_le_nine hWF3⟩

theorem spec_C7_witness :
    countEmpty (setCell scenarioA 2 0 Mark.X) + 1 = countEmpty scenarioA ∧
    minimax 5 scenarioA 0 false Mark.X Mark.O = minimax 9 scenarioA 0 false Mark.X Mark.O ∧
    countEmpty scenarioA ≤ 9 :=
  spec_C7 scenarioA scenarioA scenarioA 2 0 Mark.X Mark.X Mark.O 0 false 5 9
    (by decide) (by decide) (by decide) (by decide) (by decide) (by decide)
    (by decide) (by decide) (by decide)

theorem checkWin_one_X :
    ∀ r : Nat, r < 3 → ∀ c : Nat, c < 3 → checkWin (setCell emptyGrid r c Mark.X) = false := by
  decide

/-- The automated opening move on a fresh grid when the human selected `'O'`:
`aiMove` succeeds and leaves exactly one mark on the grid (8 empty cells). -/
theorem aiMove_on_empty (st : GameState) (hgrid : st.grid = emptyGrid)
    (hsel : st.selectedPlayer = Mark.O) :
    ∃ s2, aiMove st = some s2 ∧ countEmpty s2.grid = 8 := by
  have hne : getAvailableMoves emptyGrid ≠ [] := by decide
  have hWFe : WF emptyGrid := by decide
  have hfin : ∀ m ∈ getAvailableMoves emptyGrid,
      topScore emptyGrid Mark.X m ≠ JsNum.negInf := by
    intro m hm
    obtain ⟨hr, hc, hE⟩ := mem_getAvailableMoves.mp hm
    have hcnt := countEmpty_setCell hWFe hr hc hE (show Mark.X ≠ Mark.E by decide)
    have hnine : countEmpty emptyGrid = 9 := by decide
    obtain ⟨n, hn⟩ := minimax_fin (countEmpty emptyGrid)
      (setCell emptyGrid m.1 m.2 Mark.X) 0 false Mark.X Mark.O
      (WF_setCell hWFe _ _ _) (by omega) (by decide) (by decide)
    unfold topScore
    rw [show (if Mark.X = Mark.X then Mark.O else Mark.X) = Mark.O from rfl, hn]
    simp
  obtain ⟨pre, m, post, hsplit, hmove, _, _, _⟩ :=
    bestFold_spec (topScore emptyGrid Mark.X) (getAvailableMoves emptyGrid) hne hfin
  have hmem : m ∈ getAvailableMoves emptyGrid := by
    rw [hsplit]; exact List.mem_append_right _ (List.mem_cons_self m post)
  obtain ⟨r, c⟩ := m
  obtain ⟨hr, hc, hE⟩ := mem_getAvailableMoves.mp hmem
  dsimp only at hr hc hE hmove
  have hai : (if st.selectedPlayer = Mark.X then Mark.O else Mark.X) = Mark.X := by
    rw [hsel]; rfl
  have hgetd : emptyGrid.getD r [] = List.replicate 3 Mark.E := by
    rw [show emptyGrid = List.replicate 3 (List.replicate 3 Mark.E) from rfl]
    rw [List.getD_eq_getElem _ _ (by simpa using hr), List.getElem_replicate]
  have hrow : rowAt emptyGrid ((r : Nat) : Int) = some (List.replicate 3 Mark.E) := by
    unfold rowAt
    rw [if_neg (show ¬((r : Int) < 0) by omega), Int.toNat_natCast]
    rw [show emptyGrid = List.replicate 3 (List.replicate 3 Mark.E) from rfl]
    rw [List.getElem?_replicate]
    rw [if_pos hr]
  have hg2 : List.set emptyGrid r ((List.replicate 3 Mark.E).set c Mark.X)
      = setCell emptyGrid r c Mark.X := by
    unfold setCell
    rw [hgetd]
  have hnine : countEmpty emptyGrid = 9 := by decide
  have hcnt := countEmpty_setCell hWFe hr hc hE (show Mark.X ≠ Mark.E by decide)
  have hwin : checkWin (setCell emptyGrid r c Mark.X) = false := checkWin_one_X r hr c hc
  have hdraw : isDraw (setCell emptyGrid r c Mark.X) = false := by
    by_contra hcontra
    have := isDraw_iff_countEmpty.mp (by simpa using hcontra)
    omega
  have hbm1 : (getBestMove emptyGrid Mark.X).1 = ((r : Int), (c : Int)) :=
    (getBestMove_fst emptyGrid Mark.X).trans hmove
  have hbm2 : (getBestMove emptyGrid Mark.X).2 = emptyGrid :=
    getBestMove_snd emptyGrid Mark.X
  refine ⟨{ st with grid := setCell emptyGrid r c Mark.X, currentPlayer := st.selectedPlayer },
    ?_, ?_⟩
  · unfold aiMove
    dsimp only
    rw [hai, hgrid, hbm1, hbm2]
    dsimp only
    rw [hrow]
    dsimp only
    rw [Int.toNat_natCast, Int.toNat_natCast, hg2]
    rw [if_neg (show ¬(checkWin (setCell emptyGrid r c Mark.X) = true) by simp [hwin]),
      if_neg (show ¬(isDraw (setCell emptyGrid r c Mark.X) = true) by simp [hdraw])]
  · show countEmpty (setCell emptyGrid r c Mark.X) = 8
    omega

/-- C2: the automated opening move does not survive `startGame`.  Starting a
single-player game with the human as `'O'`, `aiMove` runs and places one
mark (8 empty cells remain), but `startGame` then calls `resetGame()`, so
the returned state's grid is the all-empty grid: the game does begin from
an all-empty board, contradicting the requirement that the opening move
persist (the defect §9 of the spec warns about). -/
theorem spec_C2 :
    ∃ s1 s2, startGame startState = some s1 ∧ s1.grid = emptyGrid ∧
      aiMove preStartState = some s2 ∧ countEmpty s2.grid = 8 := by
  obtain ⟨s2, hai, hcnt⟩ := aiMove_on_empty preStartState rfl rfl
  have hstep : startGame startState = (aiMove preStartState).map resetGame := by
    unfold startGame
    rw [if_pos (show startState.selectedPlayer ≠ Mark.E by decide)]
    dsimp only
    rw [if_pos (show startState.gameMode = Mode.single by decide)]
    rw [if_neg (show ¬startState.selectedPlayer = Mark.X by decide)]
    rfl
  exact ⟨resetGame s2, s2, by rw [hstep, hai]; rfl, rfl, hai, hcnt⟩

/-- C5: on any well-formed, non-full board with a player symbol,
`getBestMove` returns the move the spec's tie-break describes — the first,
in the row-major enumeration order of `getAvailableMoves`, among all legal
moves attaining the maximal top-level minimax score (strict `>` comparison
means ties keep the earlier move); and on the all-empty board with mover
`'X'` this first best move is the corner (0,0). -/
theorem spec_C5 (b : Board) (ai : Mark) (hWF : WF b)
    (hai : ai = Mark.X ∨ ai = Mark.O) (hD : isDraw b = false) :
    (specFirstBest (topScore b ai) (getAvailableMoves b)).map
        (fun m => ((m.1 : Int), (m.2 : Int))) = some (getBestMove b ai).1 ∧
      (getBestMove emptyGrid Mark.X).1 = ((0 : Int), (0 : Int)) := by
  refine ⟨getBestMove_spec_general b ai hWF ?_ hD, getBestMove_empty⟩
  rcases hai with h | h <;> simp [h]

theorem spec_C5_witness :
    (WF scenarioA ∧ (Mark.X = Mark.X ∨ Mark.X = Mark.O) ∧ isDraw scenarioA = false) ∧
      ((specFirstBest (topScore scenarioA Mark.X) (getAvailableMoves scenarioA)).map
          (fun m => ((m.1 : Int), (m.2 : Int))) = some (getBestMove scenarioA Mark.X).1 ∧
        (getBestMove emptyGrid Mark.X).1 = ((0 : Int), (0 : Int))) :=
  ⟨⟨by decide, Or.inl rfl, by decide⟩,
    spec_C5 scenarioA Mark.X (by decide) (Or.inl rfl) (by decide)⟩

end TTT
